import Mathlib

/-!
Shallow embedding of the GameStream client protocol core of Moonlight-Switch
(`src/app/src/libgamestream/client.cpp`), together with theorems settling the
claims about it.

The stateful C code is embedded as explicit state passing: an `Env` supplies
the HTTP response oracle and the random-byte oracle, and a world `W` carries
the chronological trace of issued HTTP requests, the count of random draws,
and the process-global error string `_gs_error`.  Each C function becomes a
Lean function from (environment, inputs, world) to (result, updated data,
world).  Components that the repository uses but whose sources are not part of
it (error-code header, HTTP/XML utilities, the `Data` blob type, the
`CryptoManager` facade) are modelled from the specification and marked as
such in their doc comments.
-/

namespace GS

/-- Modelled from the spec: the numeric GameStream result codes (the header
`errors.h` is not in `src/`).  The spec's error taxonomy (§7) lists the codes;
the numeric values follow the C convention used by Moonlight clients:
`GS_OK` is zero (the code tests results with `!= GS_OK` and relies on
truthiness of comparisons), and the failure codes are distinct negatives. -/
def GS_OK : Int := 0

/-- Protocol-level refusal (e.g. MITM detected, `gamesession=0`). -/
def GS_FAILED : Int := -1

/-- Out-of-memory result code (unused by the embedded fragment). -/
def GS_OUT_OF_MEMORY : Int := -2

/-- Malformed or incomplete XML response. -/
def GS_INVALID : Int := -3

/-- Precondition violated (already paired, in-game). -/
def GS_WRONG_STATE : Int := -4

/-- Transport failure. -/
def GS_IO_ERROR : Int := -5

/-- 4K requested against a non-4K server. -/
def GS_NOT_SUPPORTED_4K : Int := -6

/-- Server version outside the supported band. -/
def GS_UNSUPPORTED_VERSION : Int := -7

/-- Unsupported mode result code (unused by the embedded fragment). -/
def GS_NOT_SUPPORTED_MODE : Int := -8

/-- Server returned a non-200 `status_code` with a message. -/
def GS_ERROR : Int := -9

/-- Conversion of a C boolean expression used as an `int` value (`true` is 1,
`false` is 0); this is what an assignment `ret = (expr != GS_OK)` stores. -/
def boolInt (b : Bool) : Int := if b then 1 else 0

/-- Byte sequences (the `Data` value type of the Blob utility, viewed as its
underlying bytes).  Modelled from the spec (§4.2); the utility's source is
not in `src/`. -/
abbrev Blob := List Nat

/-- Modelled from the spec: `subdata(offset, len)` returns the `len` bytes
starting at `offset`. -/
def Blob.subdata (b : Blob) (off len : Nat) : Blob := (b.drop off).take len

/-- Lowercase hex digit for a value below 16 (used by `Blob.hex`). -/
def hexDigitChar (n : Nat) : Char :=
  if n < 10 then Char.ofNat (48 + n) else Char.ofNat (87 + n)

/-- Modelled from the spec: `hex()` encodes each byte as two lowercase hex
characters, no separators. -/
def Blob.hex : Blob → String
  | [] => ""
  | b :: rest => String.mk [hexDigitChar (b / 16 % 16), hexDigitChar (b % 16)] ++ Blob.hex rest

/-- Value of an ASCII hex-digit byte (used by `Blob.hex_to_bytes`). -/
def hexCharVal (n : Nat) : Nat :=
  if 48 ≤ n ∧ n ≤ 57 then n - 48
  else if 97 ≤ n ∧ n ≤ 102 then n - 87
  else if 65 ≤ n ∧ n ≤ 70 then n - 55
  else 0

/-- Modelled from the spec: `hex_to_bytes()` decodes pairs of ASCII hex-digit
bytes back into bytes. -/
def Blob.hex_to_bytes : Blob → Blob
  | a :: b :: rest => (hexCharVal a * 16 + hexCharVal b) :: Blob.hex_to_bytes rest
  | _ => []

/-- Bytes of a string, as in the C constructions
`Data(pin, strlen(pin))` and `Data((char*)result.c_str(), result.size())`. -/
def strBytes (s : String) : Blob := s.data.map Char.toNat

/-- Modelled from the spec (§4.4): a server response body as seen through the
XML Response Reader — the root element's `status_code` and `status_message`
attributes and the named child elements' text contents.  The XML utilities
themselves are not in `src/`. -/
structure Data where
  statusCode : String
  statusMessage : String
  fields : List (String × String)
deriving DecidableEq

/-- Modelled from the spec: `xml_status(data)` is `GS_OK` iff
`status_code == "200"`, else `GS_ERROR`. -/
def xml_status (d : Data) : Int :=
  if d.statusCode = "200" then GS_OK else GS_ERROR

/-- Modelled from the spec: `xml_search(data, name, &out)` stores the text of
the first child element named `name` into `out` and returns `GS_OK`, or
returns `GS_INVALID` leaving `out` at its previous value when the element is
missing.  `prev` is the previous value of the out-parameter. -/
def xml_search (d : Data) (name prev : String) : Int × String :=
  match d.fields.lookup name with
  | some s => (GS_OK, s)
  | none => (GS_INVALID, prev)

/-- Accumulator loop of `atoi`: consume leading decimal digits. -/
def digitsVal : List Char → Int → Int
  | c :: cs, acc =>
      if c.isDigit then digitsVal cs (acc * 10 + ((c.toNat : Int) - 48)) else acc
  | [], acc => acc

/-- C `atoi`: skip leading whitespace, read an optional sign and leading
decimal digits; 0 when no digits are present. -/
def atoi (s : String) : Int :=
  let cs := s.data.dropWhile (fun c => c == ' ' || c == '\t' || c == '\n')
  match cs with
  | '-' :: rest => - digitsVal rest 0
  | '+' :: rest => digitsVal rest 0
  | _ => digitsVal cs 0

/-- Modelled from the spec: overload of `xml_search` whose out-parameter is an
`int` (used for `ServerCodecModeSupport`), parsing the text with `atoi`
semantics. -/
def xml_search_int (d : Data) (name : String) (prev : Int) : Int × Int :=
  match d.fields.lookup name with
  | some s => (GS_OK, atoi s)
  | none => (GS_INVALID, prev)

/-- HTTP requests issued by the protocol layer, one constructor per
`snprintf` URL format in `client.cpp`; each constructor carries exactly the
values interpolated into that format string. -/
inductive Request where
  /-- `%s://%s:%d/serverinfo?uniqueid=%s` (scheme and port chosen by `https`). -/
  | serverinfo (https : Bool) (address : String) (port : Int) (uniqueid : String)
  /-- `http://%s:%u/unpair?uniqueid=%s`. -/
  | unpairReq (address : String) (httpPort : Int) (uniqueid : String)
  /-- `http://%s:%u/pair?uniqueid=%s&devicename=roth&updateState=1&phrase=getservercert&salt=%s&clientcert=%s`. -/
  | pairGetServerCert (address : String) (httpPort : Int) (uniqueid saltHex clientCertHex : String)
  /-- `http://%s:%u/pair?uniqueid=%s&devicename=roth&updateState=1&clientchallenge=%s`. -/
  | pairClientChallenge (address : String) (httpPort : Int) (uniqueid encryptedChallengeHex : String)
  /-- `http://%s:%u/pair?uniqueid=%s&devicename=roth&updateState=1&serverchallengeresp=%s`. -/
  | pairServerChallengeResp (address : String) (httpPort : Int) (uniqueid challengeRespEncryptedHex : String)
  /-- `http://%s:%u/pair?uniqueid=%s&devicename=roth&updateState=1&clientpairingsecret=%s`. -/
  | pairClientPairingSecret (address : String) (httpPort : Int) (uniqueid clientPairingSecretHex : String)
  /-- `https://%s:%u/pair?uniqueid=%s&devicename=roth&updateState=1&phrase=pairchallenge`. -/
  | pairChallenge (address : String) (httpsPort : Int) (uniqueid : String)
  /-- `https://%s:%u/applist?uniqueid=%s`. -/
  | applist (address : String) (httpsPort : Int) (uniqueid : String)
  /-- `https://%s:%u/appasset?uniqueid=%s&appid=%d&AssetType=2&AssetIdx=0`. -/
  | appasset (address : String) (httpsPort : Int) (uniqueid : String) (appid : Int)
  /-- `https://%s:%u/launch?uniqueid=%s&appid=%d&mode=%dx%dx%d&additionalStates=1&sops=%d&rikey=%s&rikeyid=%d&localAudioPlayMode=%d&surroundAudioInfo=%d&remoteControllersBitmap=%d&gcmap=%d%s`. -/
  | launch (address : String) (httpsPort : Int) (uniqueid : String) (appid : Int)
      (width height fps : Int) (sops : Bool) (rikeyHex : String) (rikeyid : Int)
      (localaudio : Bool) (surroundAudioInfo remoteControllersBitmap gcmap : Int)
      (extra : String)
  /-- `https://%s:%u/resume?uniqueid=%s&rikey=%s&rikeyid=%d%s`. -/
  | resume (address : String) (httpsPort : Int) (uniqueid : String)
      (rikeyHex : String) (rikeyid : Int) (extra : String)
  /-- `https://%s:%u/cancel?uniqueid=%s`. -/
  | cancel (address : String) (httpsPort : Int) (uniqueid : String)
deriving DecidableEq

/-- Predicate for `/unpair` requests in a trace. -/
def Request.isUnpair : Request → Bool
  | .unpairReq _ _ _ => true
  | _ => false

/-- Predicate for `/serverinfo` requests in a trace. -/
def Request.isServerinfo : Request → Bool
  | .serverinfo _ _ _ _ => true
  | _ => false

/-- Scheme of a `/serverinfo` request (`true` for HTTPS); `false` for any
other request. -/
def Request.httpsFlag : Request → Bool
  | .serverinfo https _ _ _ => https
  | _ => false

/-- Environment: the HTTP response oracle (indexed by how many requests have
been issued so far), the random-byte oracle (indexed by how many draws have
happened so far), and the opaque query-string suffix returned by
`LiGetLaunchUrlQueryParameters()`. -/
structure Env where
  http : Nat → Int × Data
  rng : Nat → Blob
  liQuery : String

/-- World state threaded through the embedding: the chronological trace of
issued HTTP requests, the number of random draws, and the process-global
`_gs_error` string. -/
structure W where
  reqs : List Request
  rngCount : Nat
  err : String

/-- Record an issued request at the end of the trace. -/
def W.push (w : W) (r : Request) : W := { w with reqs := w.reqs ++ [r] }

/-- Account for one draw from the random oracle. -/
def W.draw (w : W) : W := { w with rngCount := w.rngCount + 1 }

/-- `gs_set_error`: store the global last-error string. -/
def gs_set_error (w : W) (msg : String) : W := { w with err := msg }

/-- `gs_error`: read the global last-error string, defaulting to
"Unknown error..." when unset. -/
def gs_error (w : W) : String :=
  if w.err = "" then "Unknown error..." else w.err

@[simp] theorem W.push_reqs (w : W) (r : Request) : (w.push r).reqs = w.reqs ++ [r] := rfl

@[simp] theorem W.push_rngCount (w : W) (r : Request) : (w.push r).rngCount = w.rngCount := rfl

@[simp] theorem W.push_err (w : W) (r : Request) : (w.push r).err = w.err := rfl

@[simp] theorem W.draw_reqs (w : W) : w.draw.reqs = w.reqs := rfl

@[simp] theorem W.draw_rngCount (w : W) : w.draw.rngCount = w.rngCount + 1 := rfl

@[simp] theorem W.draw_err (w : W) : w.draw.err = w.err := rfl

@[simp] theorem gs_set_error_reqs (w : W) (m : String) : (gs_set_error w m).reqs = w.reqs := rfl

@[simp] theorem gs_set_error_rngCount (w : W) (m : String) :
    (gs_set_error w m).rngCount = w.rngCount := rfl

@[simp] theorem gs_set_error_err (w : W) (m : String) : (gs_set_error w m).err = m := rfl

/-- `http_request(url, &data, timeout)`: issue a GET, consuming the next
response from the oracle and recording the request in the trace.  Returns the
result code, the response body, and the updated world. -/
def http_request (e : Env) (w : W) (r : Request) : Int × Data × W :=
  let resp := e.http w.reqs.length
  (resp.1, resp.2, w.push r)

/-- `Data::random_bytes(16)`: draw the next blob from the random oracle. -/
def random_bytes (e : Env) (w : W) : Blob × W :=
  (e.rng w.rngCount, w.draw)

/-- The static `unique_id` of `client.cpp`. -/
def unique_id : String := "0123456789ABCDEF"

/-- The `SERVER_DATA` descriptor (fields used by the embedded fragment,
with `serverInfo.serverCodecModeSupport` and `serverInfo.rtspSessionUrl`
inlined as direct fields). -/
structure Server where
  address : String
  httpPort : Int
  httpsPort : Int
  paired : Bool
  currentGame : Int
  supports4K : Bool
  serverMajorVersion : Int
  serverInfoAppVersion : String
  serverInfoGfeVersion : String
  gsVersion : String
  gpuType : String
  hostname : String
  mac : String
  serverCodecModeSupport : Int
  rtspSessionUrl : Option String
deriving DecidableEq

/-- Modelled from the spec: `MAX_SUPPORTED_GFE_VERSION` (the header defining
it is not in `src/`; the value is irrelevant to the claims). -/
def MAX_SUPPORTED_GFE_VERSION : Int := 7

/-- Modelled from the spec: `MIN_SUPPORTED_GFE_VERSION` (the header defining
it is not in `src/`; the value is irrelevant to the claims). -/
def MIN_SUPPORTED_GFE_VERSION : Int := 3

/-- Pure parsing/assignment phase of `load_serverinfo` (`client.cpp` lines
86–155): given the HTTP result code and response body, compute the result
code and the updated descriptor.  The decision fields (`paired`,
`currentGame`, `supports4K`, `serverMajorVersion`, `httpsPort`) are assigned
only after every required field has been parsed and the emptiness check has
passed; the descriptor fields written through `xml_search` out-parameters are
written as they are parsed, so each early return carries exactly the fields
already written at that point (the C code writes them one at a time through
pointers; the embedding accumulates the same assignments in a single record
update per return site). -/
def lsi_parse (code : Int) (data : Data) (server : Server) : Int × Server :=
  if code ≠ GS_OK then (GS_IO_ERROR, server) else
  if xml_status data = GS_ERROR then (GS_ERROR, server) else
  let r1 := xml_search data "currentgame" ""
  if r1.1 ≠ GS_OK then (GS_INVALID, server) else
  let r2 := xml_search data "PairStatus" ""
  if r2.1 ≠ GS_OK then (GS_INVALID, server) else
  let r3 := xml_search data "appversion" server.serverInfoAppVersion
  if r3.1 ≠ GS_OK then
    (GS_INVALID, { server with serverInfoAppVersion := r3.2 }) else
  let r4 := xml_search data "state" ""
  if r4.1 ≠ GS_OK then
    (GS_INVALID, { server with serverInfoAppVersion := r3.2 }) else
  let r5 := xml_search_int data "ServerCodecModeSupport" server.serverCodecModeSupport
  if r5.1 ≠ GS_OK then
    (GS_INVALID, { server with
      serverInfoAppVersion := r3.2
      serverCodecModeSupport := r5.2 }) else
  let r6 := xml_search data "gputype" server.gpuType
  if r6.1 ≠ GS_OK then
    (GS_INVALID, { server with
      serverInfoAppVersion := r3.2
      serverCodecModeSupport := r5.2
      gpuType := r6.2 }) else
  let r7 := xml_search data "GsVersion" server.gsVersion
  if r7.1 ≠ GS_OK then
    (GS_INVALID, { server with
      serverInfoAppVersion := r3.2
      serverCodecModeSupport := r5.2
      gpuType := r6.2
      gsVersion := r7.2 }) else
  let r8 := xml_search data "hostname" server.hostname
  if r8.1 ≠ GS_OK then
    (GS_INVALID, { server with
      serverInfoAppVersion := r3.2
      serverCodecModeSupport := r5.2
      gpuType := r6.2
      gsVersion := r7.2
      hostname := r8.2 }) else
  let r9 := xml_search data "GfeVersion" server.serverInfoGfeVersion
  if r9.1 ≠ GS_OK then
    (GS_INVALID, { server with
      serverInfoAppVersion := r3.2
      serverCodecModeSupport := r5.2
      gpuType := r6.2
      gsVersion := r7.2
      hostname := r8.2
      serverInfoGfeVersion := r9.2 }) else
  let r10 := xml_search data "HttpsPort" ""
  if r10.1 ≠ GS_OK then
    (GS_INVALID, { server with
      serverInfoAppVersion := r3.2
      serverCodecModeSupport := r5.2
      gpuType := r6.2
      gsVersion := r7.2
      hostname := r8.2
      serverInfoGfeVersion := r9.2 }) else
  let r11 := xml_search data "mac" server.mac
  if r11.1 ≠ GS_OK then
    (GS_INVALID, { server with
      serverInfoAppVersion := r3.2
      serverCodecModeSupport := r5.2
      gpuType := r6.2
      gsVersion := r7.2
      hostname := r8.2
      serverInfoGfeVersion := r9.2
      mac := r11.2 }) else
  if r1.2 = "" ∨ r2.2 = "" ∨ r3.2 = "" ∨ r4.2 = "" then
    (GS_INVALID, { server with
      serverInfoAppVersion := r3.2
      serverCodecModeSupport := r5.2
      gpuType := r6.2
      gsVersion := r7.2
      hostname := r8.2
      serverInfoGfeVersion := r9.2
      mac := r11.2 }) else
  let hp := atoi r10.2
  (GS_OK, { server with
    serverInfoAppVersion := r3.2
    serverCodecModeSupport := r5.2
    gpuType := r6.2
    gsVersion := r7.2
    hostname := r8.2
    serverInfoGfeVersion := r9.2
    mac := r11.2
    paired := r2.2 = "1"
    currentGame := if r4.2 = "_SERVER_BUSY" then 0
      else if r1.2 = "" then 0 else atoi r1.2
    supports4K := r5.2 ≠ 0
    serverMajorVersion := atoi r3.2
    httpsPort := if hp = 0 then 47984 else hp })

/-- `load_serverinfo(server, https)` of `client.cpp` lines 66–159: one
`/serverinfo` exchange over the chosen scheme, then the pure parsing phase
`lsi_parse` on its result. -/
def load_serverinfo (e : Env) (server : Server) (https : Bool) (w : W) :
    Int × Server × W :=
  let port := if https then server.httpsPort else server.httpPort
  let hr := http_request e w (.serverinfo https server.address port unique_id)
  let pr := lsi_parse hr.1 hr.2.1 server
  (pr.1, pr.2, hr.2.2)

/-- Body of the fallback loop of `load_server_status` (lines 176–179):
`for (i = 0; i < 2 && ret != GS_OK; i++) ret = load_serverinfo(server, i == 0)`
with `ret` not `GS_OK` on entry — try HTTPS first, then HTTP if that failed. -/
def lss_loop (e : Env) (server : Server) (w : W) : Int × Server × W :=
  let a := load_serverinfo e server true w
  if a.1 ≠ GS_OK then load_serverinfo e a.2.1 false a.2.2 else a

/-- Version gate of `load_server_status` (lines 181–193). -/
def lss_check (ret : Int) (server : Server) (w : W) : Int × Server × W :=
  if ret = GS_OK then
    if server.serverMajorVersion > MAX_SUPPORTED_GFE_VERSION then
      (GS_UNSUPPORTED_VERSION, server, gs_set_error w
        "Ensure you're running the latest version of Moonlight-Switch or downgrade GeForce Experience and try again")
    else if server.serverMajorVersion < MIN_SUPPORTED_GFE_VERSION then
      (GS_UNSUPPORTED_VERSION, server, gs_set_error w
        "Moonlight-Switch requires a newer version of GeForce Experience. Please upgrade GFE on your PC and try again.")
    else (ret, server, w)
  else (ret, server, w)

/-- `load_server_status(server)` of `client.cpp` lines 161–196: learn the
HTTPS port over HTTP if unknown (failing fast), then try `load_serverinfo`
over HTTPS and fall back to HTTP, then apply the version gate. -/
def load_server_status (e : Env) (server : Server) (w : W) : Int × Server × W :=
  if server.httpsPort = 0 then
    let a := load_serverinfo e server false w
    if a.1 ≠ GS_OK then a
    else
      let b := lss_loop e a.2.1 a.2.2
      lss_check b.1 b.2.1 b.2.2
  else
    let b := lss_loop e server w
    lss_check b.1 b.2.1 b.2.2

/-- `gs_unpair(server)` of `client.cpp` lines 209–221: one `/unpair` GET,
returning the raw HTTP result. -/
def gs_unpair (e : Env) (server : Server) (w : W) : Int × W :=
  let hr := http_request e w (.unpairReq server.address server.httpPort unique_id)
  (hr.1, hr.2.2)

/-- `gs_pair_validate(data, &result)` of `client.cpp` lines 223–239.  The
status check is `if ((ret = xml_status(data) != GS_OK))` — by C operator
precedence `ret` receives the *comparison* (0 or 1), not the status code;
the embedding reproduces this faithfully via `boolInt`. -/
def gs_pair_validate (data : Data) : Int × String :=
  let result := ""
  let ret := boolInt (xml_status data ≠ GS_OK)
  if ret ≠ 0 then (ret, result)
  else
    let s := xml_search data "paired" result
    if s.1 ≠ GS_OK then (s.1, s.2) else (s.1, s.2)

/-- `gs_pair_cleanup(ret, server, &result)` of `client.cpp` lines 241–246:
on a non-`GS_OK` result perform a best-effort `gs_unpair` and return the
original result unchanged. -/
def gs_pair_cleanup (e : Env) (ret : Int) (server : Server) (w : W) : Int × W :=
  if ret ≠ GS_OK then (ret, (gs_unpair e server w).2) else (ret, w)

/-- The `CryptoManager` facade (its implementation is not in `src/`).
Modelled from the spec (§4.1) as a record of uninterpreted executable
functions over blobs, so that `gs_pair` is parametric in the backend. -/
structure Crypto where
  cert_data : Blob
  key_data : Blob
  create_AES_key_from_salt_SHA1 : Blob → Blob
  create_AES_key_from_salt_SHA256 : Blob → Blob
  aes_encrypt : Blob → Blob → Blob
  aes_decrypt : Blob → Blob → Blob
  SHA1_hash_data : Blob → Blob
  SHA256_hash_data : Blob → Blob
  sign_data : Blob → Blob → Blob
  verify_signature : Blob → Blob → Blob → Bool
  signature : Blob → Blob

/-- Stage 1 of `gs_pair` (`client.cpp` lines 266–293): draw the salt, issue
the `getservercert` request, validate, and extract `plaincert`.  Early exits
route through `gs_pair_cleanup` and carry the result and world in `.error`;
`.ok` carries the salted PIN, the `plaincert` text, and the world.  The
`if ((ret = gs_pair_validate(...) != GS_OK))` site reproduces the C operator
precedence: `ret` receives the comparison result (0 or 1). -/
def gs_pair_stage1 (e : Env) (c : Crypto) (server : Server) (pin : String)
    (w : W) : Except (Int × W) ((Blob × String) × W) :=
  let sw := random_bytes e w
  let salt := sw.1
  let w := sw.2
  let salted_pin := salt ++ strBytes pin
  let h1 := http_request e w (.pairGetServerCert server.address server.httpPort
    unique_id salt.hex c.cert_data.hex)
  let w := h1.2.2
  if h1.1 ≠ GS_OK then .error (gs_pair_cleanup e h1.1 server w)
  else
  let v1 := gs_pair_validate h1.2.1
  let ret := boolInt (v1.1 ≠ GS_OK)
  if ret ≠ 0 then .error (gs_pair_cleanup e ret server w)
  else
  let s1 := xml_search h1.2.1 "plaincert" v1.2
  if s1.1 ≠ GS_OK then .error (gs_pair_cleanup e s1.1 server w)
  else .ok ((salted_pin, s1.2), w)

/-- Stage 2 of `gs_pair` (`client.cpp` lines 295–334): derive the AES key
from the salted PIN (SHA-256 for generation >= 7, SHA-1 otherwise), draw and
encrypt the random challenge, issue the `clientchallenge` request, validate,
and extract `challengeresponse`.  `.ok` carries the AES key, the random
challenge, and the `challengeresponse` text. -/
def gs_pair_stage2 (e : Env) (c : Crypto) (server : Server) (salted_pin : Blob)
    (w : W) : Except (Int × W) ((Blob × Blob × String) × W) :=
  let aesKey := if server.serverMajorVersion ≥ 7 then
      c.create_AES_key_from_salt_SHA256 salted_pin
    else c.create_AES_key_from_salt_SHA1 salted_pin
  let rw := random_bytes e w
  let randomChallenge := rw.1
  let w := rw.2
  let encryptedChallenge := c.aes_encrypt randomChallenge aesKey
  let h2 := http_request e w (.pairClientChallenge server.address server.httpPort
    unique_id encryptedChallenge.hex)
  let w := h2.2.2
  if h2.1 ≠ GS_OK then .error (gs_pair_cleanup e h2.1 server w)
  else
  let v2 := gs_pair_validate h2.2.1
  let ret := boolInt (v2.1 ≠ GS_OK)
  if ret ≠ 0 then .error (gs_pair_cleanup e ret server w)
  else
  let s2 := xml_search h2.2.1 "challengeresponse" v2.2
  if s2.1 ≠ GS_OK then .error (gs_pair_cleanup e GS_INVALID server w)
  else .ok ((aesKey, randomChallenge, s2.2), w)

/-- Stage 3 of `gs_pair` (`client.cpp` lines 336–397): decrypt the server
challenge response, split it at `hashLength` (32 for generation >= 7, 20
otherwise), draw the client secret, hash and encrypt the challenge response
(SHA-256 resp. SHA-1), issue the `serverchallengeresp` request, validate,
extract `pairingsecret`, split it into the 16-byte server secret and the
256-byte signature, and perform the MITM signature check.  `.ok` carries the
client secret and the server secret. -/
def gs_pair_stage3 (e : Env) (c : Crypto) (server : Server)
    (plainCertStr : String) (aesKey : Blob) (crStr : String)
    (w : W) : Except (Int × W) ((Blob × Blob) × W) :=
  let encServerChallengeResp := (strBytes crStr).hex_to_bytes
  let decServerChallengeResp := c.aes_decrypt encServerChallengeResp aesKey
  let hashLength : Nat := if server.serverMajorVersion ≥ 7 then 32 else 20
  let _serverResponse := decServerChallengeResp.subdata 0 hashLength
  let serverChallenge := decServerChallengeResp.subdata hashLength 16
  let cw := random_bytes e w
  let clientSecret := cw.1
  let w := cw.2
  let challengeRespHashInput :=
    serverChallenge ++ c.signature c.cert_data ++ clientSecret
  let challengeRespHash := if server.serverMajorVersion ≥ 7 then
      c.SHA256_hash_data challengeRespHashInput
    else c.SHA1_hash_data challengeRespHashInput
  let challengeRespEncrypted := c.aes_encrypt challengeRespHash aesKey
  let h3 := http_request e w (.pairServerChallengeResp server.address
    server.httpPort unique_id challengeRespEncrypted.hex)
  let w := h3.2.2
  if h3.1 ≠ GS_OK then .error (gs_pair_cleanup e h3.1 server w)
  else
  let v3 := gs_pair_validate h3.2.1
  let ret := boolInt (v3.1 ≠ GS_OK)
  if ret ≠ 0 then .error (gs_pair_cleanup e ret server w)
  else
  let s3 := xml_search h3.2.1 "pairingsecret" v3.2
  if s3.1 ≠ GS_OK then .error (gs_pair_cleanup e GS_INVALID server w)
  else
  let serverSecretResp := (strBytes s3.2).hex_to_bytes
  let serverSecret := serverSecretResp.subdata 0 16
  let serverSignature := serverSecretResp.subdata 16 256
  let plainCert := strBytes plainCertStr
  if c.verify_signature serverSecret serverSignature plainCert.hex_to_bytes = false then
    .error (gs_pair_cleanup e GS_FAILED server (gs_set_error w "MITM attack detected"))
  else .ok ((clientSecret, serverSecret), w)

/-- Stage 4 of `gs_pair` (`client.cpp` lines 399–430): compute the (unused)
expected server challenge-response hash, sign the client secret, issue the
`clientpairingsecret` request, and validate. -/
def gs_pair_stage4 (e : Env) (c : Crypto) (server : Server)
    (plainCertStr : String) (randomChallenge clientSecret serverSecret : Blob)
    (w : W) : Except (Int × W) W :=
  let plainCert := strBytes plainCertStr
  let serverChallengeRespHashInput :=
    randomChallenge ++ c.signature plainCert.hex_to_bytes ++ serverSecret
  let _serverChallengeRespHash := if server.serverMajorVersion ≥ 7 then
      c.SHA256_hash_data serverChallengeRespHashInput
    else c.SHA1_hash_data serverChallengeRespHashInput
  let clientPairingSecret := clientSecret ++ c.sign_data clientSecret c.key_data
  let h4 := http_request e w (.pairClientPairingSecret server.address
    server.httpPort unique_id clientPairingSecret.hex)
  let w := h4.2.2
  if h4.1 ≠ GS_OK then .error (gs_pair_cleanup e h4.1 server w)
  else
  let v4 := gs_pair_validate h4.2.1
  let ret := boolInt (v4.1 ≠ GS_OK)
  if ret ≠ 0 then .error (gs_pair_cleanup e ret server w)
  else .ok w

/-- Stage 5 of `gs_pair` (`client.cpp` lines 432–445): the HTTPS
`pairchallenge` request and its validation. -/
def gs_pair_stage5 (e : Env) (server : Server) (w : W) : Except (Int × W) W :=
  let h5 := http_request e w (.pairChallenge server.address server.httpsPort
    unique_id)
  let w := h5.2.2
  if h5.1 ≠ GS_OK then .error (gs_pair_cleanup e h5.1 server w)
  else
  let v5 := gs_pair_validate h5.2.1
  let ret := boolInt (v5.1 ≠ GS_OK)
  if ret ≠ 0 then .error (gs_pair_cleanup e ret server w)
  else .ok w

/-- `gs_pair(server, pin)` of `client.cpp` lines 248–450: the precondition
checks, then the five stages in sequence (each stage is a contiguous region
of the source; every failure path inside a stage routes through
`gs_pair_cleanup` and aborts the sequence), and on full success the
`paired := true` assignment and the final `gs_pair_cleanup(GS_OK, ...)`
(which performs no unpair). -/
def gs_pair (e : Env) (c : Crypto) (server : Server) (pin : String) (w : W) :
    Int × Server × W :=
  if server.paired then
    (GS_WRONG_STATE, server, gs_set_error w "Already paired")
  else if server.currentGame ≠ 0 then
    (GS_WRONG_STATE, server, gs_set_error w
      "The computer is currently in a game. You must close the game before pairing")
  else
  match gs_pair_stage1 e c server pin w with
  | .error r => (r.1, server, r.2)
  | .ok (st1, w) =>
  match gs_pair_stage2 e c server st1.1 w with
  | .error r => (r.1, server, r.2)
  | .ok (st2, w) =>
  match gs_pair_stage3 e c server st1.2 st2.1 st2.2.2 w with
  | .error r => (r.1, server, r.2)
  | .ok (st3, w) =>
  match gs_pair_stage4 e c server st1.2 st2.2.1 st3.1 st3.2 w with
  | .error r => (r.1, server, r.2)
  | .ok w =>
  match gs_pair_stage5 e server w with
  | .error r => (r.1, server, r.2)
  | .ok w =>
    let server := { server with paired := true }
    let cl := gs_pair_cleanup e GS_OK server w
    (cl.1, server, cl.2)

/-- Modelled from the spec: the `AUDIO_CONFIGURATION_STEREO` constant from
the streaming library's header (not in `src/`; only its identity matters). -/
def AUDIO_CONFIGURATION_STEREO : Int := 2

/-- The `STREAM_CONFIGURATION` fields used by `gs_start_app`. -/
structure StreamConfig where
  width : Int
  height : Int
  fps : Int
  audioConfiguration : Int
  remoteInputAesKey : Blob
deriving DecidableEq

/-- `gs_start_app(server, config, appId, sops, localaudio, gamepad_mask)` of
`client.cpp` lines 487–557: the 4K gate, the fresh remote-input key, the
launch-vs-resume URL choice, and the post-request bookkeeping.  The XML
status check reproduces the C precedence (`ret` receives the comparison). -/
def gs_start_app (e : Env) (server : Server) (config : StreamConfig)
    (appId : Int) (sops localaudio : Bool) (gamepad_mask : Int) (w : W) :
    Int × Server × StreamConfig × W :=
  if config.height ≥ 2160 ∧ server.supports4K = false then
    (GS_NOT_SUPPORTED_4K, server, config, gs_set_error w "4K not supported")
  else
  let rw := random_bytes e w
  let rand := rw.1
  let w := rw.2
  let config := { config with remoteInputAesKey := rand }
  let rikeyid : Int := 0
  let req : Request :=
    if server.currentGame = 0 then
      let channelCounnt : Int :=
        if config.audioConfiguration = AUDIO_CONFIGURATION_STEREO then 2 else 6
      let mask : Int :=
        if config.audioConfiguration = AUDIO_CONFIGURATION_STEREO then 0x3 else 0xFC
      let fps : Int := if sops ∧ config.fps > 60 then 60 else config.fps
      .launch server.address server.httpsPort unique_id appId
        config.width config.height fps sops rand.hex rikeyid localaudio
        (mask * 65536 + channelCounnt) gamepad_mask gamepad_mask e.liQuery
    else
      .resume server.address server.httpsPort unique_id rand.hex rikeyid e.liQuery
  let hr := http_request e w req
  let data := hr.2.1
  let w := hr.2.2
  if hr.1 ≠ GS_OK then (hr.1, server, config, w)
  else
  let server := { server with currentGame := appId }
  let ret := boolInt (xml_status data ≠ GS_OK)
  if ret ≠ 0 then (ret, server, config, w)
  else
  let s := xml_search data "gamesession" ""
  if s.1 ≠ GS_OK then (s.1, server, config, w)
  else if s.2 = "0" then (GS_FAILED, server, config, w)
  else
  let s2 := xml_search data "sessionUrl0" s.2
  if s2.1 = GS_OK then
    (GS_OK, { server with rtspSessionUrl := some s2.2 }, config, w)
  else
    (GS_OK, server, config, w)

/-! Concrete fixtures used by the witnesses and counterexamples. -/

/-- A well-formed `status_code = 200` response carrying every field any stage
or `load_serverinfo` looks for. -/
def dataAll : Data :=
  ⟨"200", "",
   [("paired", "1"), ("plaincert", "ab"), ("challengeresponse", "cdef"),
    ("pairingsecret", "0123"), ("currentgame", "0"), ("PairStatus", "1"),
    ("appversion", "7.1.431.0"), ("state", "_SERVER_AVAILABLE"),
    ("ServerCodecModeSupport", "257"), ("gputype", "g"), ("GsVersion", "v"),
    ("hostname", "h"), ("GfeVersion", "3.20"), ("HttpsPort", "47984"),
    ("mac", "m"), ("gamesession", "1"), ("sessionUrl0", "rtsp://host")]⟩

/-- A response with a non-200 `status_code`. -/
def data404 : Data := ⟨"404", "Server error", [("paired", "1"), ("plaincert", "ab")]⟩

/-- Environment whose oracle always answers `dataAll` with `GS_OK`. -/
def envAll : Env := ⟨fun _ => (GS_OK, dataAll), fun _ => [0, 1, 2, 3], ""⟩

/-- Environment whose oracle always answers `data404` with `GS_OK`. -/
def env404 : Env := ⟨fun _ => (GS_OK, data404), fun _ => [0, 1, 2, 3], ""⟩

/-- A trivial crypto backend whose signature verification accepts. -/
def cryptId : Crypto :=
  ⟨[1], [2], fun _ => [3], fun _ => [4], fun a _ => a, fun a _ => a,
   fun _ => [5], fun _ => [6], fun a _ => a, fun _ _ _ => true, fun _ => [7]⟩

/-- A trivial crypto backend whose signature verification rejects. -/
def cryptReject : Crypto := { cryptId with verify_signature := fun _ _ _ => false }

/-- A fresh, unpaired, idle generation-7 server descriptor. -/
def srvFresh : Server :=
  ⟨"host", 47989, 47984, false, 0, true, 7, "7.1.431.0", "", "", "", "", "", 257, none⟩

/-- The initial world: empty trace, no random draws, empty error string. -/
def wInit : W := ⟨[], 0, ""⟩

/-- A 1080p stereo stream configuration. -/
def cfg1080 : StreamConfig := ⟨1920, 1080, 120, 2, []⟩

/-! Theorems settling the claims. -/

/-- C8: a `gs_pair` call with `server.paired == true`, or unpaired but with
`server.currentGame != 0`, returns `GS_WRONG_STATE` without issuing any HTTP
request and without modifying the server descriptor, and sets the global
error string to the already-paired message resp. the close-the-game
message. -/
theorem claimC8 (e : Env) (c : Crypto) (server : Server) (pin : String) (w : W)
    (h : server.paired = true ∨ (server.paired = false ∧ server.currentGame ≠ 0)) :
    (gs_pair e c server pin w).1 = GS_WRONG_STATE ∧
    (gs_pair e c server pin w).2.1 = server ∧
    (gs_pair e c server pin w).2.2.reqs = w.reqs ∧
    (server.paired = true → (gs_pair e c server pin w).2.2.err = "Already paired") ∧
    (server.paired = false →
      (gs_pair e c server pin w).2.2.err =
        "The computer is currently in a game. You must close the game before pairing") := by
  rcases h with h | ⟨h, hg⟩
  · simp [gs_pair, h, gs_set_error]
  · simp [gs_pair, h, hg, gs_set_error]

/-- C8 witness: instantiation at an already-paired server. -/
theorem claimC8_witness :
    (gs_pair envAll cryptId { srvFresh with paired := true } "1234" wInit).1 =
      GS_WRONG_STATE ∧
    (gs_pair envAll cryptId { srvFresh with paired := true } "1234" wInit).2.2.err =
      "Already paired" := by
  have h := claimC8 envAll cryptId { srvFresh with paired := true } "1234" wInit
    (Or.inl rfl)
  exact ⟨h.1, h.2.2.2.1 rfl⟩

/-- C9: a `gs_start_app` call with `config.height >= 2160` against a server
with `supports4K == false` returns `GS_NOT_SUPPORTED_4K`, issues no HTTP
request, and leaves `config.remoteInputAesKey` and the server descriptor
unchanged. -/
theorem claimC9 (e : Env) (server : Server) (config : StreamConfig)
    (appId : Int) (sops localaudio : Bool) (gm : Int) (w : W)
    (h1 : config.height ≥ 2160) (h2 : server.supports4K = false) :
    (gs_start_app e server config appId sops localaudio gm w).1 =
      GS_NOT_SUPPORTED_4K ∧
    (gs_start_app e server config appId sops localaudio gm w).2.2.2.reqs = w.reqs ∧
    (gs_start_app e server config appId sops localaudio gm w).2.2.1 = config ∧
    (gs_start_app e server config appId sops localaudio gm w).2.1 = server := by
  simp [gs_start_app, h1, h2, gs_set_error]

/-- C9 witness: instantiation at a 2160-line configuration against a
non-4K server. -/
theorem claimC9_witness :
    (gs_start_app envAll { srvFresh with supports4K := false }
      { cfg1080 with height := 2160 } 5 true false 1 wInit).1 =
      GS_NOT_SUPPORTED_4K ∧
    (gs_start_app envAll { srvFresh with supports4K := false }
      { cfg1080 with height := 2160 } 5 true false 1 wInit).2.2.2.reqs = [] := by
  have h := claimC9 envAll { srvFresh with supports4K := false }
    { cfg1080 with height := 2160 } 5 true false 1 wInit (by decide) rfl
  exact ⟨h.1, h.2.1⟩

/-- C2 (code bug): on a pairing-stage response whose `status_code` is not
"200", `xml_status` yields `GS_ERROR`, but by the C operator precedence in
`if ((ret = xml_status(data) != GS_OK))` the stage validation returns the
comparison value 1 — not `GS_ERROR` — and `gs_pair` propagates 1 (through its
own identically malformed check) to its caller. -/
theorem claimC2_code_bug :
    xml_status data404 = GS_ERROR ∧
    gs_pair_validate data404 = (1, "") ∧
    (gs_pair env404 cryptId srvFresh "0000" wInit).1 = 1 ∧
    (1 : Int) ≠ GS_ERROR := by decide

set_option maxHeartbeats 2000000 in
/-- C10: when `load_serverinfo` returns a result other than `GS_OK`, the
decision fields `paired`, `currentGame`, `supports4K`, `serverMajorVersion`
and `httpsPort` hold the same values as before the call — they are assigned
only after every required field has been parsed and checked non-empty. -/
theorem claimC10 (e : Env) (s : Server) (https : Bool) (w : W)
    (h : (load_serverinfo e s https w).1 ≠ GS_OK) :
    (load_serverinfo e s https w).2.1.paired = s.paired ∧
    (load_serverinfo e s https w).2.1.currentGame = s.currentGame ∧
    (load_serverinfo e s https w).2.1.supports4K = s.supports4K ∧
    (load_serverinfo e s https w).2.1.serverMajorVersion = s.serverMajorVersion ∧
    (load_serverinfo e s https w).2.1.httpsPort = s.httpsPort := by
  rcases hD : e.http w.reqs.length with ⟨code, data⟩
  have hL1 : (load_serverinfo e s https w).1 = (lsi_parse code data s).1 := by
    simp [load_serverinfo, http_request, hD]
  have hL2 : (load_serverinfo e s https w).2.1 = (lsi_parse code data s).2 := by
    simp [load_serverinfo, http_request, hD]
  rw [hL1] at h
  rw [hL2]
  simp only [lsi_parse] at h ⊢
  by_cases c1 : code ≠ GS_OK
  case pos => rw [if_pos c1]; exact ⟨rfl, rfl, rfl, rfl, rfl⟩
  simp only [if_neg c1] at h ⊢
  by_cases c2 : xml_status data = GS_ERROR
  case pos => rw [if_pos c2]; exact ⟨rfl, rfl, rfl, rfl, rfl⟩
  simp only [if_neg c2] at h ⊢
  by_cases c3 : (xml_search data "currentgame" "").1 ≠ GS_OK
  case pos => rw [if_pos c3]; exact ⟨rfl, rfl, rfl, rfl, rfl⟩
  simp only [if_neg c3] at h ⊢
  by_cases c4 : (xml_search data "PairStatus" "").1 ≠ GS_OK
  case pos => rw [if_pos c4]; exact ⟨rfl, rfl, rfl, rfl, rfl⟩
  simp only [if_neg c4] at h ⊢
  by_cases c5 : (xml_search data "appversion" s.serverInfoAppVersion).1 ≠ GS_OK
  case pos => rw [if_pos c5]; exact ⟨rfl, rfl, rfl, rfl, rfl⟩
  simp only [if_neg c5] at h ⊢
  by_cases c6 : (xml_search data "state" "").1 ≠ GS_OK
  case pos => rw [if_pos c6]; exact ⟨rfl, rfl, rfl, rfl, rfl⟩
  simp only [if_neg c6] at h ⊢
  by_cases c7 : (xml_search_int data "ServerCodecModeSupport" s.serverCodecModeSupport).1 ≠ GS_OK
  case pos => rw [if_pos c7]; exact ⟨rfl, rfl, rfl, rfl, rfl⟩
  simp only [if_neg c7] at h ⊢
  by_cases c8 : (xml_search data "gputype" s.gpuType).1 ≠ GS_OK
  case pos => rw [if_pos c8]; exact ⟨rfl, rfl, rfl, rfl, rfl⟩
  simp only [if_neg c8] at h ⊢
  by_cases c9 : (xml_search data "GsVersion" s.gsVersion).1 ≠ GS_OK
  case pos => rw [if_pos c9]; exact ⟨rfl, rfl, rfl, rfl, rfl⟩
  simp only [if_neg c9] at h ⊢
  by_cases c10 : (xml_search data "hostname" s.hostname).1 ≠ GS_OK
  case pos => rw [if_pos c10]; exact ⟨rfl, rfl, rfl, rfl, rfl⟩
  simp only [if_neg c10] at h ⊢
  by_cases c11 : (xml_search data "GfeVersion" s.serverInfoGfeVersion).1 ≠ GS_OK
  case pos => rw [if_pos c11]; exact ⟨rfl, rfl, rfl, rfl, rfl⟩
  simp only [if_neg c11] at h ⊢
  by_cases c12 : (xml_search data "HttpsPort" "").1 ≠ GS_OK
  case pos => rw [if_pos c12]; exact ⟨rfl, rfl, rfl, rfl, rfl⟩
  simp only [if_neg c12] at h ⊢
  by_cases c13 : (xml_search data "mac" s.mac).1 ≠ GS_OK
  case pos => rw [if_pos c13]; exact ⟨rfl, rfl, rfl, rfl, rfl⟩
  simp only [if_neg c13] at h ⊢
  by_cases c14 : (xml_search data "currentgame" "").2 = "" ∨
      (xml_search data "PairStatus" "").2 = "" ∨
      (xml_search data "appversion" s.serverInfoAppVersion).2 = "" ∨
      (xml_search data "state" "").2 = ""
  case pos => rw [if_pos c14]; exact ⟨rfl, rfl, rfl, rfl, rfl⟩
  simp only [if_neg c14] at h ⊢
  exact absurd rfl h

/-- C10 witness: a non-200 `serverinfo` response fails the call and leaves
the decision fields untouched. -/
theorem claimC10_witness :
    (load_serverinfo env404 srvFresh true wInit).1 ≠ GS_OK ∧
    (load_serverinfo env404 srvFresh true wInit).2.1.paired = srvFresh.paired ∧
    (load_serverinfo env404 srvFresh true wInit).2.1.httpsPort = srvFresh.httpsPort := by
  have h := claimC10 env404 srvFresh true wInit (by decide)
  exact ⟨by decide, h.1, h.2.2.2.2⟩

set_option maxHeartbeats 2000000 in
/-- C6: a `gs_start_app` call passing the 4K gate issues, when
`server.currentGame == 0`, a `/launch` request carrying the appid and the
mode triple WxHxFPS whose fps component is clamped to 60 exactly when `sops`
holds and `config.fps > 60`; when `server.currentGame != 0` it issues a
`/resume` request carrying rikey and rikeyid (and structurally no appid). -/
theorem claimC6 (e : Env) (server : Server) (config : StreamConfig)
    (appId : Int) (sops localaudio : Bool) (gm : Int) (w : W)
    (hgate : ¬(config.height ≥ 2160 ∧ server.supports4K = false)) :
    (server.currentGame = 0 →
      (gs_start_app e server config appId sops localaudio gm w).2.2.2.reqs =
        w.reqs ++ [Request.launch server.address server.httpsPort unique_id appId
          config.width config.height
          (if sops ∧ config.fps > 60 then 60 else config.fps) sops
          (e.rng w.rngCount).hex 0 localaudio
          ((if config.audioConfiguration = AUDIO_CONFIGURATION_STEREO then 3 else 252) * 65536 +
            (if config.audioConfiguration = AUDIO_CONFIGURATION_STEREO then 2 else 6))
          gm gm e.liQuery]) ∧
    (server.currentGame ≠ 0 →
      (gs_start_app e server config appId sops localaudio gm w).2.2.2.reqs =
        w.reqs ++ [Request.resume server.address server.httpsPort unique_id
          (e.rng w.rngCount).hex 0 e.liQuery]) := by
  constructor <;> intro hcg <;>
    simp only [gs_start_app, http_request, random_bytes, if_neg hgate, hcg,
      W.draw_reqs, W.draw_rngCount, W.push_reqs, if_pos, if_neg] <;>
    split_ifs <;> simp_all

set_option maxHeartbeats 2000000 in
/-- C7: when the HTTP request of `gs_start_app` returns `GS_OK`,
`server.currentGame` equals `appId` on return — also when the XML validation
fails or the `gamesession` field equals "0" (which yields `GS_FAILED`);
when the HTTP request fails, the server descriptor is unchanged and the HTTP
error is propagated. -/
theorem claimC7 (e : Env) (server : Server) (config : StreamConfig)
    (appId : Int) (sops localaudio : Bool) (gm : Int) (w : W)
    (hgate : ¬(config.height ≥ 2160 ∧ server.supports4K = false)) :
    ((e.http w.reqs.length).1 = GS_OK →
      (gs_start_app e server config appId sops localaudio gm w).2.1.currentGame = appId) ∧
    ((e.http w.reqs.length).1 ≠ GS_OK →
      (gs_start_app e server config appId sops localaudio gm w).2.1 = server ∧
      (gs_start_app e server config appId sops localaudio gm w).1 =
        (e.http w.reqs.length).1) ∧
    ((e.http w.reqs.length).1 = GS_OK →
      xml_status (e.http w.reqs.length).2 = GS_OK →
      (e.http w.reqs.length).2.fields.lookup "gamesession" = some "0" →
      (gs_start_app e server config appId sops localaudio gm w).1 = GS_FAILED ∧
      (gs_start_app e server config appId sops localaudio gm w).2.1.currentGame = appId) := by
  rcases hD : e.http w.reqs.length with ⟨code, data⟩
  refine ⟨?_, ?_, ?_⟩
  · intro h
    simp only [gs_start_app, http_request, random_bytes, if_neg hgate,
      W.draw_reqs, hD] at *
    split_ifs <;> simp_all
  · intro h
    simp only [gs_start_app, http_request, random_bytes, if_neg hgate,
      W.draw_reqs, hD] at *
    split_ifs <;> simp_all
  · intro h hx hg
    simp only at hx hg
    simp only [gs_start_app, http_request, random_bytes, if_neg hgate,
      W.draw_reqs, hD, xml_search, hg, hx] at *
    split_ifs <;> simp_all [boolInt, xml_search]

/-- C6 witness: a launch from an idle generation-7 server with
`sops = true` and `fps = 120` (hence clamped to 60). -/
theorem claimC6_witness :
    (gs_start_app envAll srvFresh cfg1080 5 true false 1 wInit).2.2.2.reqs =
      wInit.reqs ++ [Request.launch srvFresh.address srvFresh.httpsPort unique_id 5
        cfg1080.width cfg1080.height
        (if (true : Bool) ∧ cfg1080.fps > 60 then 60 else cfg1080.fps) true
        (envAll.rng wInit.rngCount).hex 0 false
        ((if cfg1080.audioConfiguration = AUDIO_CONFIGURATION_STEREO then 3 else 252) * 65536 +
          (if cfg1080.audioConfiguration = AUDIO_CONFIGURATION_STEREO then 2 else 6))
        1 1 envAll.liQuery] :=
  (claimC6 envAll srvFresh cfg1080 5 true false 1 wInit (by decide)).1 rfl

/-- C7 witness: a successful HTTP exchange records `currentGame = appId`. -/
theorem claimC7_witness :
    (envAll.http wInit.reqs.length).1 = GS_OK ∧
    (gs_start_app envAll srvFresh cfg1080 5 true false 1 wInit).2.1.currentGame = 5 :=
  ⟨by decide, (claimC7 envAll srvFresh cfg1080 5 true false 1 wInit (by decide)).1 (by decide)⟩

/-- Trace shape of one `load_serverinfo` call: exactly one `/serverinfo`
request over the chosen scheme is appended. -/
theorem load_serverinfo_reqs (e : Env) (s : Server) (https : Bool) (w : W) :
    (load_serverinfo e s https w).2.2.reqs =
      w.reqs ++ [Request.serverinfo https s.address
        (if https then s.httpsPort else s.httpPort) unique_id] := by
  simp [load_serverinfo, http_request]

/-- The version gate of `load_server_status` issues no requests. -/
theorem lss_check_reqs (r : Int) (s : Server) (w : W) :
    (lss_check r s w).2.2.reqs = w.reqs := by
  simp only [lss_check]
  split_ifs <;> simp

set_option maxHeartbeats 1000000 in
/-- C5: `load_server_status` first learns the HTTPS port over HTTP when
`httpsPort == 0`, returning that error immediately on failure; it then calls
`load_serverinfo` at most twice, first over HTTPS then over HTTP, stopping at
the first `GS_OK` — in both the known-port and the port-learning path the
trace is characterized exactly by the result of each attempt, so no request
follows a successful one; in total at most three `/serverinfo` exchanges
happen. -/
theorem claimC5 (e : Env) (s : Server) (w : W) :
    (∃ new, (load_server_status e s w).2.2.reqs = w.reqs ++ new ∧
      new.length ≤ 3 ∧ (∀ r ∈ new, r.isServerinfo = true)) ∧
    (s.httpsPort = 0 → (load_serverinfo e s false w).1 ≠ GS_OK →
      load_server_status e s w = load_serverinfo e s false w) ∧
    (s.httpsPort ≠ 0 →
      ((load_serverinfo e s true w).1 = GS_OK →
        (load_server_status e s w).2.2.reqs =
          w.reqs ++ [Request.serverinfo true s.address s.httpsPort unique_id]) ∧
      ((load_serverinfo e s true w).1 ≠ GS_OK →
        (load_server_status e s w).2.2.reqs =
          w.reqs ++ [Request.serverinfo true s.address s.httpsPort unique_id,
            Request.serverinfo false (load_serverinfo e s true w).2.1.address
              (load_serverinfo e s true w).2.1.httpPort unique_id])) ∧
    (s.httpsPort = 0 → (load_serverinfo e s false w).1 = GS_OK →
      ((load_serverinfo e (load_serverinfo e s false w).2.1 true
          (load_serverinfo e s false w).2.2).1 = GS_OK →
        (load_server_status e s w).2.2.reqs =
          w.reqs ++ [Request.serverinfo false s.address s.httpPort unique_id,
            Request.serverinfo true (load_serverinfo e s false w).2.1.address
              (load_serverinfo e s false w).2.1.httpsPort unique_id]) ∧
      ((load_serverinfo e (load_serverinfo e s false w).2.1 true
          (load_serverinfo e s false w).2.2).1 ≠ GS_OK →
        (load_server_status e s w).2.2.reqs =
          w.reqs ++ [Request.serverinfo false s.address s.httpPort unique_id,
            Request.serverinfo true (load_serverinfo e s false w).2.1.address
              (load_serverinfo e s false w).2.1.httpsPort unique_id,
            Request.serverinfo false
              (load_serverinfo e (load_serverinfo e s false w).2.1 true
                (load_serverinfo e s false w).2.2).2.1.address
              (load_serverinfo e (load_serverinfo e s false w).2.1 true
                (load_serverinfo e s false w).2.2).2.1.httpPort unique_id])) := by
  refine ⟨?_, ?_, ?_, ?_⟩
  · by_cases h0 : s.httpsPort = 0
    · rcases hA : load_serverinfo e s false w with ⟨ra, sa, wa⟩
      have hAr : wa.reqs = w.reqs ++ [Request.serverinfo false s.address s.httpPort unique_id] := by
        have h' := load_serverinfo_reqs e s false w
        rw [hA] at h'; simpa using h'
      by_cases ha : ra = GS_OK
      · rcases hB : load_serverinfo e sa true wa with ⟨rb, sb, wb⟩
        have hBr : wb.reqs = wa.reqs ++ [Request.serverinfo true sa.address sa.httpsPort unique_id] := by
          have h' := load_serverinfo_reqs e sa true wa
          rw [hB] at h'; simpa using h'
        by_cases hb : rb = GS_OK
        · refine ⟨[Request.serverinfo false s.address s.httpPort unique_id,
              Request.serverinfo true sa.address sa.httpsPort unique_id], ?_, ?_, ?_⟩ <;>
            simp [load_server_status, h0, hA, ha, lss_loop, hB, hb, lss_check_reqs,
              hBr, hAr, Request.isServerinfo]
        · rcases hC : load_serverinfo e sb false wb with ⟨rc, sc, wc⟩
          have hCr : wc.reqs = wb.reqs ++ [Request.serverinfo false sb.address sb.httpPort unique_id] := by
            have h' := load_serverinfo_reqs e sb false wb
            rw [hC] at h'; simpa using h'
          refine ⟨[Request.serverinfo false s.address s.httpPort unique_id,
              Request.serverinfo true sa.address sa.httpsPort unique_id,
              Request.serverinfo false sb.address sb.httpPort unique_id], ?_, ?_, ?_⟩ <;>
            simp [load_server_status, h0, hA, ha, lss_loop, hB, hb, hC, lss_check_reqs,
              hCr, hBr, hAr, Request.isServerinfo]
      · refine ⟨[Request.serverinfo false s.address s.httpPort unique_id], ?_, ?_, ?_⟩ <;>
          simp [load_server_status, h0, hA, ha, hAr, Request.isServerinfo]
    · rcases hB : load_serverinfo e s true w with ⟨rb, sb, wb⟩
      have hBr : wb.reqs = w.reqs ++ [Request.serverinfo true s.address s.httpsPort unique_id] := by
        have h' := load_serverinfo_reqs e s true w
        rw [hB] at h'; simpa using h'
      by_cases hb : rb = GS_OK
      · refine ⟨[Request.serverinfo true s.address s.httpsPort unique_id], ?_, ?_, ?_⟩ <;>
          simp [load_server_status, h0, lss_loop, hB, hb, lss_check_reqs, hBr,
            Request.isServerinfo]
      · rcases hC : load_serverinfo e sb false wb with ⟨rc, sc, wc⟩
        have hCr : wc.reqs = wb.reqs ++ [Request.serverinfo false sb.address sb.httpPort unique_id] := by
          have h' := load_serverinfo_reqs e sb false wb
          rw [hC] at h'; simpa using h'
        refine ⟨[Request.serverinfo true s.address s.httpsPort unique_id,
            Request.serverinfo false sb.address sb.httpPort unique_id], ?_, ?_, ?_⟩ <;>
          simp [load_server_status, h0, lss_loop, hB, hb, hC, lss_check_reqs, hCr, hBr,
            Request.isServerinfo]
  · intro h0 hfail
    simp [load_server_status, h0, hfail]
  · intro h0
    rcases hB : load_serverinfo e s true w with ⟨rb, sb, wb⟩
    have hBr : wb.reqs = w.reqs ++ [Request.serverinfo true s.address s.httpsPort unique_id] := by
      have h' := load_serverinfo_reqs e s true w
      rw [hB] at h'; simpa using h'
    constructor
    · intro hok
      simp only at hok
      simp [load_server_status, h0, lss_loop, hB, hok, lss_check_reqs, hBr]
    · intro hfail
      simp only at hfail
      rcases hC : load_serverinfo e sb false wb with ⟨rc, sc, wc⟩
      have hCr : wc.reqs = wb.reqs ++ [Request.serverinfo false sb.address sb.httpPort unique_id] := by
        have h' := load_serverinfo_reqs e sb false wb
        rw [hC] at h'; simpa using h'
      simp [load_server_status, h0, lss_loop, hB, hfail, hC, lss_check_reqs, hCr, hBr]
  · intro h0 ha
    rcases hA : load_serverinfo e s false w with ⟨ra, sa, wa⟩
    have hAr : wa.reqs = w.reqs ++ [Request.serverinfo false s.address s.httpPort unique_id] := by
      have h' := load_serverinfo_reqs e s false w
      rw [hA] at h'; simpa using h'
    rcases hB : load_serverinfo e sa true wa with ⟨rb, sb, wb⟩
    have hBr : wb.reqs = wa.reqs ++ [Request.serverinfo true sa.address sa.httpsPort unique_id] := by
      have h' := load_serverinfo_reqs e sa true wa
      rw [hB] at h'; simpa using h'
    have ha' : ra = GS_OK := by simpa [hA] using ha
    constructor
    · intro hok
      try simp only [hB] at hok
      simp [load_server_status, h0, hA, ha', lss_loop, hB, hok, lss_check_reqs,
        hBr, hAr]
    · intro hfail
      try simp only [hB] at hfail
      rcases hC : load_serverinfo e sb false wb with ⟨rc, sc, wc⟩
      have hCr : wc.reqs = wb.reqs ++ [Request.serverinfo false sb.address sb.httpPort unique_id] := by
        have h' := load_serverinfo_reqs e sb false wb
        rw [hC] at h'; simpa using h'
      simp [load_server_status, h0, hA, ha', lss_loop, hB, hfail, hC, lss_check_reqs,
        hCr, hBr, hAr]

/-- C5 witness: with the HTTPS port known and the HTTPS attempt succeeding,
exactly one `/serverinfo` exchange happens. -/
theorem claimC5_witness :
    srvFresh.httpsPort ≠ 0 ∧
    (load_serverinfo envAll srvFresh true wInit).1 = GS_OK ∧
    (load_server_status envAll srvFresh wInit).2.2.reqs =
      [Request.serverinfo true srvFresh.address srvFresh.httpsPort unique_id] := by
  have h := ((claimC5 envAll srvFresh wInit).2.2.1 (by decide)).1 (by decide)
  exact ⟨by decide, by decide, by simpa using h⟩

/-- `gs_pair_cleanup` returns its argument unchanged; the `gs_unpair` HTTP result never replaces it. -/
theorem gs_pair_cleanup_fst (e : Env) (r : Int) (s : Server) (w : W) :
    (gs_pair_cleanup e r s w).1 = r := by
  simp only [gs_pair_cleanup]
  split_ifs <;> rfl

/-- On a non-`GS_OK` result, `gs_pair_cleanup` performs exactly one `/unpair` request. -/
theorem gs_pair_cleanup_reqs (e : Env) (r : Int) (s : Server) (w : W) (h : r ≠ GS_OK) :
    (gs_pair_cleanup e r s w).2.reqs =
      w.reqs ++ [Request.unpairReq s.address s.httpPort unique_id] := by
  simp [gs_pair_cleanup, h, gs_unpair, http_request]

/-- On `GS_OK`, `gs_pair_cleanup` performs no request at all. -/
theorem gs_pair_cleanup_okk (e : Env) (s : Server) (w : W) :
    gs_pair_cleanup e GS_OK s w = (GS_OK, w) := by
  simp [gs_pair_cleanup]

/-- `gs_pair_cleanup` leaves the global error string untouched. -/
theorem gs_pair_cleanup_err (e : Env) (r : Int) (s : Server) (w : W) :
    (gs_pair_cleanup e r s w).2.err = w.err := by
  simp only [gs_pair_cleanup, gs_unpair, http_request]
  split_ifs <;> simp

/-- A stage-1 failure carries a non-`GS_OK` code, only appends to the trace, and ends the trace with the `/unpair` call. -/
theorem gs_pair_stage1_error (e : Env) (c : Crypto) (server : Server)
    (pin : String) (w : W) (r : Int × W)
    (h : gs_pair_stage1 e c server pin w = .error r) :
    r.1 ≠ GS_OK ∧ (∃ l, r.2.reqs = w.reqs ++ l) ∧
    r.2.reqs.getLast? =
      some (Request.unpairReq server.address server.httpPort unique_id) := by
  simp only [gs_pair_stage1, random_bytes, http_request] at h
  split_ifs at h with c1 c2 c3
  · rw [Except.error.injEq] at h
    subst h
    simp only [W.draw_reqs] at c1 ⊢
    exact ⟨by simpa [gs_pair_cleanup_fst] using c1,
      ⟨_, by rw [gs_pair_cleanup_reqs _ _ _ _ c1, W.push_reqs, W.draw_reqs,
        List.append_assoc]⟩,
      by rw [gs_pair_cleanup_reqs _ _ _ _ c1]; simp⟩
  · rw [Except.error.injEq] at h
    subst h
    simp only [W.draw_reqs] at c2 ⊢
    have c2' := c2
    rw [show (0 : Int) = GS_OK from rfl] at c2'
    exact ⟨by simpa [gs_pair_cleanup_fst] using c2',
      ⟨_, by rw [gs_pair_cleanup_reqs _ _ _ _ c2', W.push_reqs, W.draw_reqs,
        List.append_assoc]⟩,
      by rw [gs_pair_cleanup_reqs _ _ _ _ c2']; simp⟩
  · rw [Except.error.injEq] at h
    subst h
    simp only [W.draw_reqs] at c3 ⊢
    exact ⟨by simpa [gs_pair_cleanup_fst] using c3,
      ⟨_, by rw [gs_pair_cleanup_reqs _ _ _ _ c3, W.push_reqs, W.draw_reqs,
        List.append_assoc]⟩,
      by rw [gs_pair_cleanup_reqs _ _ _ _ c3]; simp⟩

/-- A successful stage 1 appends only non-unpair requests to the trace. -/
theorem gs_pair_stage1_okk (e : Env) (c : Crypto) (server : Server)
    (pin : String) (w : W) (st : Blob × String) (w' : W)
    (h : gs_pair_stage1 e c server pin w = .ok (st, w')) :
    ∃ l, w'.reqs = w.reqs ++ l ∧ ∀ x ∈ l, x.isUnpair = false := by
  simp only [gs_pair_stage1, random_bytes, http_request] at h
  split_ifs at h
  rw [Except.ok.injEq, Prod.mk.injEq] at h
  obtain ⟨h1, h2⟩ := h
  subst h2
  exact ⟨_, by rw [W.push_reqs, W.draw_reqs], by simp [Request.isUnpair]⟩

/-- A stage-2 failure carries a non-`GS_OK` code, only appends to the trace, and ends the trace with the `/unpair` call. -/
theorem gs_pair_stage2_error (e : Env) (c : Crypto) (server : Server)
    (salted_pin : Blob) (w : W) (r : Int × W)
    (h : gs_pair_stage2 e c server salted_pin w = .error r) :
    r.1 ≠ GS_OK ∧ (∃ l, r.2.reqs = w.reqs ++ l) ∧
    r.2.reqs.getLast? =
      some (Request.unpairReq server.address server.httpPort unique_id) := by
  by_cases hM : server.serverMajorVersion ≥ 7
  · simp only [gs_pair_stage2, random_bytes, http_request, hM, if_true, if_false,
      ite_true, ite_false] at h
    split_ifs at h with c1 c2 c3
    · rw [Except.error.injEq] at h
      subst h
      simp only [W.draw_reqs] at c1 ⊢
      exact ⟨by simpa [gs_pair_cleanup_fst] using c1,
        ⟨_, by rw [gs_pair_cleanup_reqs _ _ _ _ c1, W.push_reqs, W.draw_reqs,
          List.append_assoc]⟩,
        by rw [gs_pair_cleanup_reqs _ _ _ _ c1]; simp⟩
    · rw [Except.error.injEq] at h
      subst h
      simp only [W.draw_reqs] at c2 ⊢
      have c2' := c2
      rw [show (0 : Int) = GS_OK from rfl] at c2'
      exact ⟨by simpa [gs_pair_cleanup_fst] using c2',
        ⟨_, by rw [gs_pair_cleanup_reqs _ _ _ _ c2', W.push_reqs, W.draw_reqs,
          List.append_assoc]⟩,
        by rw [gs_pair_cleanup_reqs _ _ _ _ c2']; simp⟩
    · rw [Except.error.injEq] at h
      subst h
      exact ⟨by rw [gs_pair_cleanup_fst]; decide,
        ⟨_, by rw [gs_pair_cleanup_reqs _ _ _ _ (by decide : GS_INVALID ≠ GS_OK),
          W.push_reqs, W.draw_reqs, List.append_assoc]⟩,
        by rw [gs_pair_cleanup_reqs _ _ _ _ (by decide : GS_INVALID ≠ GS_OK)]; simp⟩
  · simp only [gs_pair_stage2, random_bytes, http_request, hM, if_true, if_false,
      ite_true, ite_false] at h
    split_ifs at h with c1 c2 c3
    · rw [Except.error.injEq] at h
      subst h
      simp only [W.draw_reqs] at c1 ⊢
      exact ⟨by simpa [gs_pair_cleanup_fst] using c1,
        ⟨_, by rw [gs_pair_cleanup_reqs _ _ _ _ c1, W.push_reqs, W.draw_reqs,
          List.append_assoc]⟩,
        by rw [gs_pair_cleanup_reqs _ _ _ _ c1]; simp⟩
    · rw [Except.error.injEq] at h
      subst h
      simp only [W.draw_reqs] at c2 ⊢
      have c2' := c2
      rw [show (0 : Int) = GS_OK from rfl] at c2'
      exact ⟨by simpa [gs_pair_cleanup_fst] using c2',
        ⟨_, by rw [gs_pair_cleanup_reqs _ _ _ _ c2', W.push_reqs, W.draw_reqs,
          List.append_assoc]⟩,
        by rw [gs_pair_cleanup_reqs _ _ _ _ c2']; simp⟩
    · rw [Except.error.injEq] at h
      subst h
      exact ⟨by rw [gs_pair_cleanup_fst]; decide,
        ⟨_, by rw [gs_pair_cleanup_reqs _ _ _ _ (by decide : GS_INVALID ≠ GS_OK),
          W.push_reqs, W.draw_reqs, List.append_assoc]⟩,
        by rw [gs_pair_cleanup_reqs _ _ _ _ (by decide : GS_INVALID ≠ GS_OK)]; simp⟩

/-- A successful stage 2 appends only non-unpair requests to the trace. -/
theorem gs_pair_stage2_okk (e : Env) (c : Crypto) (server : Server)
    (salted_pin : Blob) (w : W) (st : Blob × Blob × String) (w' : W)
    (h : gs_pair_stage2 e c server salted_pin w = .ok (st, w')) :
    ∃ l, w'.reqs = w.reqs ++ l ∧ ∀ x ∈ l, x.isUnpair = false := by
  by_cases hM : server.serverMajorVersion ≥ 7 <;>
    simp only [gs_pair_stage2, random_bytes, http_request, hM, if_true, if_false,
      ite_true, ite_false] at h <;>
    split_ifs at h <;>
    rw [Except.ok.injEq, Prod.mk.injEq] at h <;>
    exact ⟨_, by rw [← h.2, W.push_reqs, W.draw_reqs], by simp [Request.isUnpair]⟩

/-- A stage-3 failure (including the MITM check) carries a non-`GS_OK` code, only appends to the trace, and ends the trace with the `/unpair` call. -/
theorem gs_pair_stage3_error (e : Env) (c : Crypto) (server : Server)
    (plainCertStr : String) (aesKey : Blob) (crStr : String) (w : W) (r : Int × W)
    (h : gs_pair_stage3 e c server plainCertStr aesKey crStr w = .error r) :
    r.1 ≠ GS_OK ∧ (∃ l, r.2.reqs = w.reqs ++ l) ∧
    r.2.reqs.getLast? =
      some (Request.unpairReq server.address server.httpPort unique_id) := by
  by_cases hM : server.serverMajorVersion ≥ 7
  all_goals
    simp only [gs_pair_stage3, random_bytes, http_request, hM, if_true, if_false,
      ite_true, ite_false] at h
    split_ifs at h with c1 c2 c3 c4
    · rw [Except.error.injEq] at h
      subst h
      simp only [W.draw_reqs] at c1 ⊢
      exact ⟨by simpa [gs_pair_cleanup_fst] using c1,
        ⟨_, by rw [gs_pair_cleanup_reqs _ _ _ _ c1, W.push_reqs, W.draw_reqs,
          List.append_assoc]⟩,
        by rw [gs_pair_cleanup_reqs _ _ _ _ c1]; simp⟩
    · rw [Except.error.injEq] at h
      subst h
      simp only [W.draw_reqs] at c2 ⊢
      have c2' := c2
      rw [show (0 : Int) = GS_OK from rfl] at c2'
      exact ⟨by simpa [gs_pair_cleanup_fst] using c2',
        ⟨_, by rw [gs_pair_cleanup_reqs _ _ _ _ c2', W.push_reqs, W.draw_reqs,
          List.append_assoc]⟩,
        by rw [gs_pair_cleanup_reqs _ _ _ _ c2']; simp⟩
    · rw [Except.error.injEq] at h
      subst h
      exact ⟨by rw [gs_pair_cleanup_fst]; decide,
        ⟨_, by rw [gs_pair_cleanup_reqs _ _ _ _ (by decide : GS_INVALID ≠ GS_OK),
          W.push_reqs, W.draw_reqs, List.append_assoc]⟩,
        by rw [gs_pair_cleanup_reqs _ _ _ _ (by decide : GS_INVALID ≠ GS_OK)]; simp⟩
    · rw [Except.error.injEq] at h
      subst h
      exact ⟨by rw [gs_pair_cleanup_fst]; decide,
        ⟨_, by rw [gs_pair_cleanup_reqs _ _ _ _ (by decide : GS_FAILED ≠ GS_OK),
          gs_set_error_reqs, W.push_reqs, W.draw_reqs, List.append_assoc]⟩,
        by rw [gs_pair_cleanup_reqs _ _ _ _ (by decide : GS_FAILED ≠ GS_OK)]; simp⟩

/-- A successful stage 3 appends only non-unpair requests to the trace. -/
theorem gs_pair_stage3_okk (e : Env) (c : Crypto) (server : Server)
    (plainCertStr : String) (aesKey : Blob) (crStr : String) (w : W)
    (st : Blob × Blob) (w' : W)
    (h : gs_pair_stage3 e c server plainCertStr aesKey crStr w = .ok (st, w')) :
    ∃ l, w'.reqs = w.reqs ++ l ∧ ∀ x ∈ l, x.isUnpair = false := by
  by_cases hM : server.serverMajorVersion ≥ 7 <;>
    simp only [gs_pair_stage3, random_bytes, http_request, hM, if_true, if_false,
      ite_true, ite_false] at h <;>
    split_ifs at h <;>
    rw [Except.ok.injEq, Prod.mk.injEq] at h <;>
    exact ⟨_, by rw [← h.2, W.push_reqs, W.draw_reqs], by simp [Request.isUnpair]⟩

/-- A stage-4 failure carries a non-`GS_OK` code, only appends to the trace, and ends the trace with the `/unpair` call. -/
theorem gs_pair_stage4_error (e : Env) (c : Crypto) (server : Server)
    (plainCertStr : String) (randomChallenge clientSecret serverSecret : Blob)
    (w : W) (r : Int × W)
    (h : gs_pair_stage4 e c server plainCertStr randomChallenge clientSecret
      serverSecret w = .error r) :
    r.1 ≠ GS_OK ∧ (∃ l, r.2.reqs = w.reqs ++ l) ∧
    r.2.reqs.getLast? =
      some (Request.unpairReq server.address server.httpPort unique_id) := by
  simp only [gs_pair_stage4, http_request] at h
  split_ifs at h with c1 c2
  · rw [Except.error.injEq] at h
    subst h
    exact ⟨by simpa [gs_pair_cleanup_fst] using c1,
      ⟨_, by rw [gs_pair_cleanup_reqs _ _ _ _ c1, W.push_reqs, List.append_assoc]⟩,
      by rw [gs_pair_cleanup_reqs _ _ _ _ c1]; simp⟩
  · rw [Except.error.injEq] at h
    subst h
    have c2' := c2
    rw [show (0 : Int) = GS_OK from rfl] at c2'
    exact ⟨by simpa [gs_pair_cleanup_fst] using c2',
      ⟨_, by rw [gs_pair_cleanup_reqs _ _ _ _ c2', W.push_reqs, List.append_assoc]⟩,
      by rw [gs_pair_cleanup_reqs _ _ _ _ c2']; simp⟩

/-- A successful stage 4 appends only non-unpair requests to the trace. -/
theorem gs_pair_stage4_okk (e : Env) (c : Crypto) (server : Server)
    (plainCertStr : String) (randomChallenge clientSecret serverSecret : Blob)
    (w : W) (w' : W)
    (h : gs_pair_stage4 e c server plainCertStr randomChallenge clientSecret
      serverSecret w = .ok w') :
    ∃ l, w'.reqs = w.reqs ++ l ∧ ∀ x ∈ l, x.isUnpair = false := by
  simp only [gs_pair_stage4, http_request] at h
  split_ifs at h
  rw [Except.ok.injEq] at h
  exact ⟨_, by rw [← h, W.push_reqs], by simp [Request.isUnpair]⟩

/-- A stage-5 failure carries a non-`GS_OK` code, only appends to the trace, and ends the trace with the `/unpair` call. -/
theorem gs_pair_stage5_error (e : Env) (server : Server) (w : W) (r : Int × W)
    (h : gs_pair_stage5 e server w = .error r) :
    r.1 ≠ GS_OK ∧ (∃ l, r.2.reqs = w.reqs ++ l) ∧
    r.2.reqs.getLast? =
      some (Request.unpairReq server.address server.httpPort unique_id) := by
  simp only [gs_pair_stage5, http_request] at h
  split_ifs at h with c1 c2
  · rw [Except.error.injEq] at h
    subst h
    exact ⟨by simpa [gs_pair_cleanup_fst] using c1,
      ⟨_, by rw [gs_pair_cleanup_reqs _ _ _ _ c1, W.push_reqs, List.append_assoc]⟩,
      by rw [gs_pair_cleanup_reqs _ _ _ _ c1]; simp⟩
  · rw [Except.error.injEq] at h
    subst h
    have c2' := c2
    rw [show (0 : Int) = GS_OK from rfl] at c2'
    exact ⟨by simpa [gs_pair_cleanup_fst] using c2',
      ⟨_, by rw [gs_pair_cleanup_reqs _ _ _ _ c2', W.push_reqs, List.append_assoc]⟩,
      by rw [gs_pair_cleanup_reqs _ _ _ _ c2']; simp⟩

/-- A successful stage 5 appends only non-unpair requests to the trace. -/
theorem gs_pair_stage5_okk (e : Env) (server : Server) (w : W) (w' : W)
    (h : gs_pair_stage5 e server w = .ok w') :
    ∃ l, w'.reqs = w.reqs ++ l ∧ ∀ x ∈ l, x.isUnpair = false := by
  simp only [gs_pair_stage5, http_request] at h
  split_ifs at h
  rw [Except.ok.injEq] at h
  exact ⟨_, by rw [← h, W.push_reqs], by simp [Request.isUnpair]⟩

set_option maxHeartbeats 1000000 in
/-- C1: when any stage of `gs_pair` fails after at least one HTTP request has
been issued, the trace ends with a `/unpair` call and the cleanup returns the
original stage error code (the unpair result does not replace it — first
conjunct); when `gs_pair` returns `GS_OK`, `server.paired` has been set to
true and no unpair call was made. -/
theorem claimC1 (e : Env) (c : Crypto) (server : Server) (pin : String) (w : W) :
    (∀ r w', (gs_pair_cleanup e r server w').1 = r ∧
      (r ≠ GS_OK → (gs_pair_cleanup e r server w').2.reqs =
        w'.reqs ++ [Request.unpairReq server.address server.httpPort unique_id]) ∧
      (r = GS_OK → (gs_pair_cleanup e r server w').2 = w')) ∧
    ((gs_pair e c server pin w).1 ≠ GS_OK →
      (gs_pair e c server pin w).2.2.reqs ≠ w.reqs →
      (gs_pair e c server pin w).2.2.reqs.getLast? =
        some (Request.unpairReq server.address server.httpPort unique_id)) ∧
    ((gs_pair e c server pin w).1 = GS_OK →
      (gs_pair e c server pin w).2.1.paired = true ∧
      ∀ x ∈ (gs_pair e c server pin w).2.2.reqs.drop w.reqs.length,
        x.isUnpair = false) := by
  refine ⟨fun r w' => ⟨gs_pair_cleanup_fst e r server w',
    fun h => gs_pair_cleanup_reqs e r server w' h,
    fun h => by subst h; rw [gs_pair_cleanup_okk]⟩, ?_⟩
  by_cases hp0 : server.paired = true
  · have hO : gs_pair e c server pin w =
        (GS_WRONG_STATE, server, gs_set_error w "Already paired") := by
      simp [gs_pair, hp0]
    rw [hO]
    exact ⟨fun _ hne => absurd (by simp) hne, fun hok => absurd hok (by simp [GS_WRONG_STATE, GS_OK])⟩
  have hp0' : server.paired = false := by simpa using hp0
  by_cases hg0 : server.currentGame = 0
  case neg =>
    have hO : gs_pair e c server pin w =
        (GS_WRONG_STATE, server, gs_set_error w
          "The computer is currently in a game. You must close the game before pairing") := by
      simp [gs_pair, hp0', hg0]
    rw [hO]
    exact ⟨fun _ hne => absurd (by simp) hne, fun hok => absurd hok (by simp [GS_WRONG_STATE, GS_OK])⟩
  rcases hS1 : gs_pair_stage1 e c server pin w with r1 | ⟨st1, w1⟩
  · have he := gs_pair_stage1_error e c server pin w r1 hS1
    have hO : gs_pair e c server pin w = (r1.1, server, r1.2) := by
      simp [gs_pair, hp0', hg0, hS1]
    rw [hO]
    exact ⟨fun _ _ => he.2.2, fun hok => absurd hok he.1⟩
  rcases hS2 : gs_pair_stage2 e c server st1.1 w1 with r2 | ⟨st2, w2⟩
  · have he := gs_pair_stage2_error e c server st1.1 w1 r2 hS2
    have hO : gs_pair e c server pin w = (r2.1, server, r2.2) := by
      simp [gs_pair, hp0', hg0, hS1, hS2]
    rw [hO]
    exact ⟨fun _ _ => he.2.2, fun hok => absurd hok he.1⟩
  rcases hS3 : gs_pair_stage3 e c server st1.2 st2.1 st2.2.2 w2 with r3 | ⟨st3, w3⟩
  · have he := gs_pair_stage3_error e c server st1.2 st2.1 st2.2.2 w2 r3 hS3
    have hO : gs_pair e c server pin w = (r3.1, server, r3.2) := by
      simp [gs_pair, hp0', hg0, hS1, hS2, hS3]
    rw [hO]
    exact ⟨fun _ _ => he.2.2, fun hok => absurd hok he.1⟩
  rcases hS4 : gs_pair_stage4 e c server st1.2 st2.2.1 st3.1 st3.2 w3 with r4 | w4
  · have he := gs_pair_stage4_error e c server st1.2 st2.2.1 st3.1 st3.2 w3 r4 hS4
    have hO : gs_pair e c server pin w = (r4.1, server, r4.2) := by
      simp [gs_pair, hp0', hg0, hS1, hS2, hS3, hS4]
    rw [hO]
    exact ⟨fun _ _ => he.2.2, fun hok => absurd hok he.1⟩
  rcases hS5 : gs_pair_stage5 e server w4 with r5 | w5
  · have he := gs_pair_stage5_error e server w4 r5 hS5
    have hO : gs_pair e c server pin w = (r5.1, server, r5.2) := by
      simp [gs_pair, hp0', hg0, hS1, hS2, hS3, hS4, hS5]
    rw [hO]
    exact ⟨fun _ _ => he.2.2, fun hok => absurd hok he.1⟩
  · obtain ⟨l1, hw1, hl1⟩ := gs_pair_stage1_okk e c server pin w st1 w1 hS1
    obtain ⟨l2, hw2, hl2⟩ := gs_pair_stage2_okk e c server st1.1 w1 st2 w2 hS2
    obtain ⟨l3, hw3, hl3⟩ := gs_pair_stage3_okk e c server st1.2 st2.1 st2.2.2 w2 st3 w3 hS3
    obtain ⟨l4, hw4, hl4⟩ := gs_pair_stage4_okk e c server st1.2 st2.2.1 st3.1 st3.2 w3 w4 hS4
    obtain ⟨l5, hw5, hl5⟩ := gs_pair_stage5_okk e server w4 w5 hS5
    have hO : gs_pair e c server pin w =
        (GS_OK, { server with paired := true }, w5) := by
      simp [gs_pair, hp0', hg0, hS1, hS2, hS3, hS4, hS5, gs_pair_cleanup_okk]
    rw [hO]
    refine ⟨fun hne _ => absurd rfl hne, fun _ => ⟨rfl, ?_⟩⟩
    rw [hw5, hw4, hw3, hw2, hw1]
    simp only [List.append_assoc, List.drop_left]
    intro x hx
    simp only [List.mem_append] at hx
    rcases hx with h | h | h | h | h
    · exact hl1 x h
    · exact hl2 x h
    · exact hl3 x h
    · exact hl4 x h
    · exact hl5 x h

/-- C1 witness: a fully successful pairing run sets `paired` and performs no
unpair call. -/
theorem claimC1_witness :
    (gs_pair envAll cryptId srvFresh "1234" wInit).1 = GS_OK ∧
    (gs_pair envAll cryptId srvFresh "1234" wInit).2.1.paired = true ∧
    ∀ x ∈ (gs_pair envAll cryptId srvFresh "1234" wInit).2.2.reqs.drop
      wInit.reqs.length, x.isUnpair = false := by
  have h := (claimC1 envAll cryptId srvFresh "1234" wInit).2.2 (by decide)
  exact ⟨by decide, h.1, h.2⟩

/-- Deterministic run of stage 1: a `GS_OK` response with status 200 carrying `paired` and `plaincert` yields the salted PIN, the `plaincert` text, and one `getservercert` request. -/
theorem gs_pair_stage1_run (e : Env) (c : Crypto) (server : Server)
    (pin : String) (w : W) (pd pc : String)
    (hcode : (e.http w.reqs.length).1 = GS_OK)
    (hst : (e.http w.reqs.length).2.statusCode = "200")
    (hp : (e.http w.reqs.length).2.fields.lookup "paired" = some pd)
    (hpc : (e.http w.reqs.length).2.fields.lookup "plaincert" = some pc) :
    gs_pair_stage1 e c server pin w =
      .ok ((e.rng w.rngCount ++ strBytes pin, pc),
        (w.draw).push (Request.pairGetServerCert server.address server.httpPort
          unique_id (e.rng w.rngCount).hex c.cert_data.hex)) := by
  simp [gs_pair_stage1, random_bytes, http_request, gs_pair_validate, xml_status,
    xml_search, boolInt, hcode, hst, hp, hpc, GS_OK, GS_ERROR, GS_INVALID]

/-- Deterministic run of stage 2: a `GS_OK` response with status 200 carrying `paired` and `challengeresponse` yields the AES key (SHA-256-derived for generation >= 7, SHA-1 otherwise), the drawn challenge, and one `clientchallenge` request. -/
theorem gs_pair_stage2_run (e : Env) (c : Crypto) (server : Server)
    (salted_pin : Blob) (w : W) (pd cr : String)
    (hcode : (e.http w.reqs.length).1 = GS_OK)
    (hst : (e.http w.reqs.length).2.statusCode = "200")
    (hp : (e.http w.reqs.length).2.fields.lookup "paired" = some pd)
    (hcr : (e.http w.reqs.length).2.fields.lookup "challengeresponse" = some cr) :
    gs_pair_stage2 e c server salted_pin w =
      .ok (((if server.serverMajorVersion ≥ 7 then
          c.create_AES_key_from_salt_SHA256 salted_pin
        else c.create_AES_key_from_salt_SHA1 salted_pin),
        e.rng w.rngCount, cr),
        (w.draw).push (Request.pairClientChallenge server.address server.httpPort
          unique_id (c.aes_encrypt (e.rng w.rngCount)
            (if server.serverMajorVersion ≥ 7 then
              c.create_AES_key_from_salt_SHA256 salted_pin
            else c.create_AES_key_from_salt_SHA1 salted_pin)).hex)) := by
  simp [gs_pair_stage2, random_bytes, http_request, gs_pair_validate, xml_status,
    xml_search, boolInt, hcode, hst, hp, hcr, GS_OK, GS_ERROR, GS_INVALID]

/-- Deterministic run of stage 3 when the signature of the received pairing secret does not verify: the stage exits with `GS_FAILED`, the error string "MITM attack detected", and one `/unpair` call after the `serverchallengeresp` request. -/
theorem gs_pair_stage3_run_mitm (e : Env) (c : Crypto) (server : Server)
    (pcStr : String) (aesKey : Blob) (crStr : String) (w : W) (pd ps : String)
    (hcode : (e.http w.reqs.length).1 = GS_OK)
    (hst : (e.http w.reqs.length).2.statusCode = "200")
    (hp : (e.http w.reqs.length).2.fields.lookup "paired" = some pd)
    (hps : (e.http w.reqs.length).2.fields.lookup "pairingsecret" = some ps)
    (hv : c.verify_signature ((strBytes ps).hex_to_bytes.subdata 0 16)
      ((strBytes ps).hex_to_bytes.subdata 16 256)
      ((strBytes pcStr).hex_to_bytes) = false) :
    gs_pair_stage3 e c server pcStr aesKey crStr w =
      .error (GS_FAILED,
        (gs_set_error ((w.draw).push
          (Request.pairServerChallengeResp server.address server.httpPort
            unique_id (c.aes_encrypt
              (if server.serverMajorVersion ≥ 7 then
                c.SHA256_hash_data
                  ((c.aes_decrypt (strBytes crStr).hex_to_bytes aesKey).subdata
                      (if server.serverMajorVersion ≥ 7 then 32 else 20) 16 ++
                    c.signature c.cert_data ++ e.rng w.rngCount)
              else
                c.SHA1_hash_data
                  ((c.aes_decrypt (strBytes crStr).hex_to_bytes aesKey).subdata
                      (if server.serverMajorVersion ≥ 7 then 32 else 20) 16 ++
                    c.signature c.cert_data ++ e.rng w.rngCount))
              aesKey).hex)) "MITM attack detected").push
          (Request.unpairReq server.address server.httpPort unique_id)) := by
  simp [gs_pair_stage3, random_bytes, http_request, gs_pair_validate, xml_status,
    xml_search, boolInt, gs_pair_cleanup, gs_unpair, hcode, hst, hp, hps, hv,
    GS_OK, GS_ERROR, GS_INVALID, GS_FAILED]

/-- `gs_pair_cleanup` only appends to the trace. -/
theorem gs_pair_cleanup_reqs_ext (e : Env) (r : Int) (s : Server) (w : W) :
    ∃ l, (gs_pair_cleanup e r s w).2.reqs = w.reqs ++ l := by
  simp only [gs_pair_cleanup, gs_unpair, http_request]
  split_ifs
  · exact ⟨_, by rw [W.push_reqs]⟩
  · exact ⟨[], by simp⟩

/-- Whatever the outcome of stage 3, the first request it appends is the `serverchallengeresp` request built from the hash chosen by the server generation and the split of the decrypted challenge response at `hashLength`. -/
theorem gs_pair_stage3_reqs (e : Env) (c : Crypto) (server : Server)
    (pcStr : String) (aesKey : Blob) (crStr : String) (w : W) :
    (∀ r, gs_pair_stage3 e c server pcStr aesKey crStr w = .error r →
      ∃ rest, r.2.reqs = (w.reqs ++
        [Request.pairServerChallengeResp server.address server.httpPort
          unique_id (c.aes_encrypt
            (if server.serverMajorVersion ≥ 7 then
              c.SHA256_hash_data
                ((c.aes_decrypt (strBytes crStr).hex_to_bytes aesKey).subdata
                    (if server.serverMajorVersion ≥ 7 then 32 else 20) 16 ++
                  c.signature c.cert_data ++ e.rng w.rngCount)
            else
              c.SHA1_hash_data
                ((c.aes_decrypt (strBytes crStr).hex_to_bytes aesKey).subdata
                    (if server.serverMajorVersion ≥ 7 then 32 else 20) 16 ++
                  c.signature c.cert_data ++ e.rng w.rngCount))
            aesKey).hex]) ++ rest) ∧
    (∀ st w', gs_pair_stage3 e c server pcStr aesKey crStr w = .ok (st, w') →
      w'.reqs = w.reqs ++
        [Request.pairServerChallengeResp server.address server.httpPort
          unique_id (c.aes_encrypt
            (if server.serverMajorVersion ≥ 7 then
              c.SHA256_hash_data
                ((c.aes_decrypt (strBytes crStr).hex_to_bytes aesKey).subdata
                    (if server.serverMajorVersion ≥ 7 then 32 else 20) 16 ++
                  c.signature c.cert_data ++ e.rng w.rngCount)
            else
              c.SHA1_hash_data
                ((c.aes_decrypt (strBytes crStr).hex_to_bytes aesKey).subdata
                    (if server.serverMajorVersion ≥ 7 then 32 else 20) 16 ++
                  c.signature c.cert_data ++ e.rng w.rngCount))
            aesKey).hex]) := by
  constructor
  · intro r h
    by_cases hM : server.serverMajorVersion ≥ 7
    all_goals
      simp only [gs_pair_stage3, random_bytes, http_request, hM, if_true, if_false,
        ite_true, ite_false] at h
      split_ifs at h
      all_goals
        rw [Except.error.injEq] at h
        subst h
        obtain ⟨l, hl⟩ := gs_pair_cleanup_reqs_ext e _ server _
        exact ⟨l, by rw [hl]; simp [hM]⟩
  · intro st w' h
    by_cases hM : server.serverMajorVersion ≥ 7
    all_goals
      simp only [gs_pair_stage3, random_bytes, http_request, hM, if_true, if_false,
        ite_true, ite_false] at h
      split_ifs at h
      rw [Except.ok.injEq, Prod.mk.injEq] at h
      rw [← h.2]
      simp [hM]

set_option maxHeartbeats 1000000 in
/-- C3: when `gs_pair` reaches stage 3 and `verify_signature` of the received
server secret (bytes 0..16 of the decoded `pairingsecret`) against the server
signature (bytes 16..272) under the stage-1 server certificate fails,
`gs_pair` returns `GS_FAILED`, the global error string is set to
"MITM attack detected", and exactly one `/unpair` HTTP call is performed. -/
theorem claimC3 (e : Env) (c : Crypto) (server : Server) (pin : String) (w : W)
    (pd1 pc pd2 cr pd3 ps : String)
    (hpaired : server.paired = false) (hgame : server.currentGame = 0)
    (h1c : (e.http w.reqs.length).1 = GS_OK)
    (h1s : (e.http w.reqs.length).2.statusCode = "200")
    (h1p : (e.http w.reqs.length).2.fields.lookup "paired" = some pd1)
    (h1pc : (e.http w.reqs.length).2.fields.lookup "plaincert" = some pc)
    (h2c : (e.http (w.reqs.length + 1)).1 = GS_OK)
    (h2s : (e.http (w.reqs.length + 1)).2.statusCode = "200")
    (h2p : (e.http (w.reqs.length + 1)).2.fields.lookup "paired" = some pd2)
    (h2cr : (e.http (w.reqs.length + 1)).2.fields.lookup "challengeresponse" = some cr)
    (h3c : (e.http (w.reqs.length + 2)).1 = GS_OK)
    (h3s : (e.http (w.reqs.length + 2)).2.statusCode = "200")
    (h3p : (e.http (w.reqs.length + 2)).2.fields.lookup "paired" = some pd3)
    (h3ps : (e.http (w.reqs.length + 2)).2.fields.lookup "pairingsecret" = some ps)
    (hv : c.verify_signature ((strBytes ps).hex_to_bytes.subdata 0 16)
      ((strBytes ps).hex_to_bytes.subdata 16 256)
      ((strBytes pc).hex_to_bytes) = false) :
    (gs_pair e c server pin w).1 = GS_FAILED ∧
    (gs_pair e c server pin w).2.2.err = "MITM attack detected" ∧
    ((gs_pair e c server pin w).2.2.reqs.filter Request.isUnpair).length =
      (w.reqs.filter Request.isUnpair).length + 1 := by
  have hs1 := gs_pair_stage1_run e c server pin w pd1 pc h1c h1s h1p h1pc
  set w1 := (w.draw).push (Request.pairGetServerCert server.address
    server.httpPort unique_id (e.rng w.rngCount).hex c.cert_data.hex) with hw1
  have e1 : w1.reqs.length = w.reqs.length + 1 := by
    rw [hw1]; simp
  have hs2 := gs_pair_stage2_run e c server (e.rng w.rngCount ++ strBytes pin)
    w1 pd2 cr (by rw [e1]; exact h2c) (by rw [e1]; exact h2s)
    (by rw [e1]; exact h2p) (by rw [e1]; exact h2cr)
  set K := (if server.serverMajorVersion ≥ 7 then
      c.create_AES_key_from_salt_SHA256 (e.rng w.rngCount ++ strBytes pin)
    else c.create_AES_key_from_salt_SHA1 (e.rng w.rngCount ++ strBytes pin))
    with hK
  set w2 := (w1.draw).push (Request.pairClientChallenge server.address
    server.httpPort unique_id (c.aes_encrypt (e.rng w1.rngCount) K).hex) with hw2
  have e2 : w2.reqs.length = w.reqs.length + 2 := by
    rw [hw2]; simp [e1]
  have hs3 := gs_pair_stage3_run_mitm e c server pc K cr w2 pd3 ps
    (by rw [e2]; exact h3c) (by rw [e2]; exact h3s)
    (by rw [e2]; exact h3p) (by rw [e2]; exact h3ps) hv
  have hO : gs_pair e c server pin w =
      (GS_FAILED, server,
        (gs_set_error ((w2.draw).push
          (Request.pairServerChallengeResp server.address server.httpPort
            unique_id (c.aes_encrypt
              (if server.serverMajorVersion ≥ 7 then
                c.SHA256_hash_data
                  ((c.aes_decrypt (strBytes cr).hex_to_bytes K).subdata
                      (if server.serverMajorVersion ≥ 7 then 32 else 20) 16 ++
                    c.signature c.cert_data ++ e.rng w2.rngCount)
              else
                c.SHA1_hash_data
                  ((c.aes_decrypt (strBytes cr).hex_to_bytes K).subdata
                      (if server.serverMajorVersion ≥ 7 then 32 else 20) 16 ++
                    c.signature c.cert_data ++ e.rng w2.rngCount))
              K).hex)) "MITM attack detected").push
          (Request.unpairReq server.address server.httpPort unique_id)) := by
    simp only [gs_pair, hpaired, hgame, hs1, hs2, hs3, Bool.false_eq_true,
      if_false, ite_false, ite_true, if_true]
    simp
  rw [hO]
  refine ⟨rfl, by simp, ?_⟩
  simp [hw2, hw1, List.filter_append, Request.isUnpair]

set_option maxHeartbeats 1000000 in
/-- C4: in every `gs_pair` execution reaching stage 3, when
`serverMajorVersion >= 7` the AES key is derived from the salted PIN with
SHA-256, the stage-3 challenge-response hash uses SHA-256, and the decrypted
server challenge response is split at `hashLength = 32` (the server challenge
being bytes [hashLength, hashLength+16)); otherwise SHA-1 is used throughout
with `hashLength = 20` — all observable in the second and third pairing
requests on the wire. -/
theorem claimC4 (e : Env) (c : Crypto) (server : Server) (pin : String) (w : W)
    (pd1 pc pd2 cr : String)
    (hpaired : server.paired = false) (hgame : server.currentGame = 0)
    (h1c : (e.http w.reqs.length).1 = GS_OK)
    (h1s : (e.http w.reqs.length).2.statusCode = "200")
    (h1p : (e.http w.reqs.length).2.fields.lookup "paired" = some pd1)
    (h1pc : (e.http w.reqs.length).2.fields.lookup "plaincert" = some pc)
    (h2c : (e.http (w.reqs.length + 1)).1 = GS_OK)
    (h2s : (e.http (w.reqs.length + 1)).2.statusCode = "200")
    (h2p : (e.http (w.reqs.length + 1)).2.fields.lookup "paired" = some pd2)
    (h2cr : (e.http (w.reqs.length + 1)).2.fields.lookup "challengeresponse" = some cr) :
    (server.serverMajorVersion ≥ 7 →
      ∃ rest, (gs_pair e c server pin w).2.2.reqs = w.reqs ++
        [Request.pairGetServerCert server.address server.httpPort unique_id
          (e.rng w.rngCount).hex c.cert_data.hex,
         Request.pairClientChallenge server.address server.httpPort unique_id
          (c.aes_encrypt (e.rng (w.rngCount + 1))
            (c.create_AES_key_from_salt_SHA256 (e.rng w.rngCount ++ strBytes pin))).hex,
         Request.pairServerChallengeResp server.address server.httpPort unique_id
          (c.aes_encrypt
            (c.SHA256_hash_data
              ((c.aes_decrypt (strBytes cr).hex_to_bytes
                  (c.create_AES_key_from_salt_SHA256
                    (e.rng w.rngCount ++ strBytes pin))).subdata 32 16 ++
                c.signature c.cert_data ++ e.rng (w.rngCount + 2)))
            (c.create_AES_key_from_salt_SHA256
              (e.rng w.rngCount ++ strBytes pin))).hex] ++ rest) ∧
    (¬ server.serverMajorVersion ≥ 7 →
      ∃ rest, (gs_pair e c server pin w).2.2.reqs = w.reqs ++
        [Request.pairGetServerCert server.address server.httpPort unique_id
          (e.rng w.rngCount).hex c.cert_data.hex,
         Request.pairClientChallenge server.address server.httpPort unique_id
          (c.aes_encrypt (e.rng (w.rngCount + 1))
            (c.create_AES_key_from_salt_SHA1 (e.rng w.rngCount ++ strBytes pin))).hex,
         Request.pairServerChallengeResp server.address server.httpPort unique_id
          (c.aes_encrypt
            (c.SHA1_hash_data
              ((c.aes_decrypt (strBytes cr).hex_to_bytes
                  (c.create_AES_key_from_salt_SHA1
                    (e.rng w.rngCount ++ strBytes pin))).subdata 20 16 ++
                c.signature c.cert_data ++ e.rng (w.rngCount + 2)))
            (c.create_AES_key_from_salt_SHA1
              (e.rng w.rngCount ++ strBytes pin))).hex] ++ rest) := by
  have hs1 := gs_pair_stage1_run e c server pin w pd1 pc h1c h1s h1p h1pc
  set w1 := (w.draw).push (Request.pairGetServerCert server.address
    server.httpPort unique_id (e.rng w.rngCount).hex c.cert_data.hex) with hw1
  have e1 : w1.reqs.length = w.reqs.length + 1 := by rw [hw1]; simp
  have hs2 := gs_pair_stage2_run e c server (e.rng w.rngCount ++ strBytes pin)
    w1 pd2 cr (by rw [e1]; exact h2c) (by rw [e1]; exact h2s)
    (by rw [e1]; exact h2p) (by rw [e1]; exact h2cr)
  set K := (if server.serverMajorVersion ≥ 7 then
      c.create_AES_key_from_salt_SHA256 (e.rng w.rngCount ++ strBytes pin)
    else c.create_AES_key_from_salt_SHA1 (e.rng w.rngCount ++ strBytes pin))
    with hK
  set w2 := (w1.draw).push (Request.pairClientChallenge server.address
    server.httpPort unique_id (c.aes_encrypt (e.rng w1.rngCount) K).hex) with hw2
  have e1r : w1.rngCount = w.rngCount + 1 := by rw [hw1]; simp
  have e2r : w2.rngCount = w.rngCount + 2 := by rw [hw2]; simp [e1r]
  have hw1r : w1.reqs = w.reqs ++ [Request.pairGetServerCert server.address
      server.httpPort unique_id (e.rng w.rngCount).hex c.cert_data.hex] := by
    rw [hw1]; simp
  have hw2r : w2.reqs = w1.reqs ++ [Request.pairClientChallenge server.address
      server.httpPort unique_id (c.aes_encrypt (e.rng w1.rngCount) K).hex] := by
    rw [hw2]; simp
  have main : ∃ rest, (gs_pair e c server pin w).2.2.reqs =
      (w2.reqs ++
        [Request.pairServerChallengeResp server.address server.httpPort
          unique_id (c.aes_encrypt
            (if server.serverMajorVersion ≥ 7 then
              c.SHA256_hash_data
                ((c.aes_decrypt (strBytes cr).hex_to_bytes K).subdata
                    (if server.serverMajorVersion ≥ 7 then 32 else 20) 16 ++
                  c.signature c.cert_data ++ e.rng w2.rngCount)
            else
              c.SHA1_hash_data
                ((c.aes_decrypt (strBytes cr).hex_to_bytes K).subdata
                    (if server.serverMajorVersion ≥ 7 then 32 else 20) 16 ++
                  c.signature c.cert_data ++ e.rng w2.rngCount))
            K).hex]) ++ rest := by
    simp only [gs_pair, hpaired, hgame, hs1, hs2, Bool.false_eq_true, if_false,
      ite_false, ite_true, if_true]
    rcases hS3 : gs_pair_stage3 e c server pc K cr w2 with r3 | ⟨st3, w3⟩
    · simp only [hS3]
      exact (gs_pair_stage3_reqs e c server pc K cr w2).1 r3 hS3
    · simp only [hS3]
      have h3 := (gs_pair_stage3_reqs e c server pc K cr w2).2 st3 w3 hS3
      rcases hS4 : gs_pair_stage4 e c server pc (e.rng w1.rngCount) st3.1 st3.2 w3
        with r4 | w4
      · simp only [hS4]
        obtain ⟨l, hl⟩ := (gs_pair_stage4_error e c server pc (e.rng w1.rngCount)
          st3.1 st3.2 w3 r4 hS4).2.1
        exact ⟨l, by show r4.2.reqs = _; rw [hl, h3]⟩
      · simp only [hS4]
        obtain ⟨l4, hl4, _⟩ := gs_pair_stage4_okk e c server pc (e.rng w1.rngCount)
          st3.1 st3.2 w3 w4 hS4
        rcases hS5 : gs_pair_stage5 e server w4 with r5 | w5
        · simp only [hS5]
          obtain ⟨l5, hl5⟩ := (gs_pair_stage5_error e server w4 r5 hS5).2.1
          exact ⟨l4 ++ l5, by show r5.2.reqs = _; rw [hl5, hl4, h3]; simp⟩
        · simp only [hS5]
          obtain ⟨l5, hl5, _⟩ := gs_pair_stage5_okk e server w4 w5 hS5
          exact ⟨l4 ++ l5, by
            simp only [gs_pair_cleanup_okk]
            show w5.reqs = _
            rw [hl5, hl4, h3]
            simp⟩
  refine ⟨?_, ?_⟩
  · intro hM
    obtain ⟨rest, hr⟩ := main
    refine ⟨rest, ?_⟩
    rw [hr, hw2r, hw1r]
    simp [hK, hM, e1r, e2r, List.append_assoc]
  · intro hM
    obtain ⟨rest, hr⟩ := main
    refine ⟨rest, ?_⟩
    rw [hr, hw2r, hw1r]
    simp [hK, hM, e1r, e2r, List.append_assoc]

/-- C3 witness: a rejecting signature verifier at a concrete oracle. -/
theorem claimC3_witness :
    (gs_pair envAll cryptReject srvFresh "1234" wInit).1 = GS_FAILED ∧
    (gs_pair envAll cryptReject srvFresh "1234" wInit).2.2.err =
      "MITM attack detected" ∧
    ((gs_pair envAll cryptReject srvFresh "1234" wInit).2.2.reqs.filter
      Request.isUnpair).length = 1 := by
  have h := claimC3 envAll cryptReject srvFresh "1234" wInit "1" "ab" "1" "cdef"
    "1" "0123" rfl rfl (by decide) (by decide) (by decide) (by decide)
    (by decide) (by decide) (by decide) (by decide) (by decide) (by decide)
    (by decide) (by decide) (by decide)
  exact ⟨h.1, h.2.1, by rw [h.2.2]; decide⟩

/-- C4 witness: the first three pairing requests of a concrete generation-7
run use the SHA-256-derived key and the split at 32. -/
theorem claimC4_witness :
    (gs_pair envAll cryptId srvFresh "1234" wInit).2.2.reqs.take 3 =
      [Request.pairGetServerCert srvFresh.address srvFresh.httpPort unique_id
        (envAll.rng wInit.rngCount).hex cryptId.cert_data.hex,
       Request.pairClientChallenge srvFresh.address srvFresh.httpPort unique_id
        (cryptId.aes_encrypt (envAll.rng (wInit.rngCount + 1))
          (cryptId.create_AES_key_from_salt_SHA256
            (envAll.rng wInit.rngCount ++ strBytes "1234"))).hex,
       Request.pairServerChallengeResp srvFresh.address srvFresh.httpPort unique_id
        (cryptId.aes_encrypt
          (cryptId.SHA256_hash_data
            ((cryptId.aes_decrypt (strBytes "cdef").hex_to_bytes
                (cryptId.create_AES_key_from_salt_SHA256
                  (envAll.rng wInit.rngCount ++ strBytes "1234"))).subdata 32 16 ++
              cryptId.signature cryptId.cert_data ++
              envAll.rng (wInit.rngCount + 2)))
          (cryptId.create_AES_key_from_salt_SHA256
            (envAll.rng wInit.rngCount ++ strBytes "1234"))).hex] := by
  obtain ⟨rest, hr⟩ := (claimC4 envAll cryptId srvFresh "1234" wInit "1" "ab" "1"
    "cdef" rfl rfl (by decide) (by decide) (by decide) (by decide)
    (by decide) (by decide) (by decide) (by decide)).1 (by decide)
  rw [hr]
  simp [wInit]

end GS
